import Mathlib

/-! Narrowphase query facade of FCL (`fcl/narrowphase/narrowphase.h`)

A shallow embedding of `shapeDistance` and of the native GJK/EPA queries of
`narrowphase.h` (`shapeDistance2`, `shapeIntersect2` and the two
`shapeTriangleIntersect2` overloads) together with the part of the data model
they touch.  The functions are written over an arbitrary scalar type `α` with
the operations the code uses on `BVH_REAL` (`+`, `-`, `*`, `<`, literals), so
they can be read in exact arithmetic (a linear ordered field) as well as in
rounded binary64 arithmetic (`Double`); `std::sqrt` is a parameter of the
functions that call it.  The
solvers `details::GJK`, `details::EPA` and the `gjk_libccd` wrapper are declared
in other headers (`gjk.h`, `gjk_libccd.h`), so they enter as parameters
(`Solvers`, `GJKInitializer`, `GJKDistance`).
-/

namespace fcl

/-! ## Vectors, matrices, transforms -/

/-- Modelled from the spec: `Vec3f` (declared in the absent `vec_3f.h`), a triple of reals. -/
@[ext]
structure Vec3f (α : Type) where
  x : α
  y : α
  z : α
deriving DecidableEq

/-- Modelled from the spec: `Matrix3f` (declared in the absent `matrix_3f.h`), a 3×3 matrix,
stored row by row. -/
@[ext]
structure Matrix3f (α : Type) where
  xx : α
  xy : α
  xz : α
  yx : α
  yy : α
  yz : α
  zx : α
  zy : α
  zz : α
deriving DecidableEq

/-- Modelled from the spec: `SimpleTransform` (declared in the absent `transform.h`), a rotation
plus a translation. -/
@[ext]
structure SimpleTransform (α : Type) where
  R : Matrix3f α
  T : Vec3f α
deriving DecidableEq

section Algebra

variable {α : Type} [Zero α] [One α] [Add α] [Sub α] [Neg α] [Mul α] [OfScientific α]
  [LT α] [DecidableRel (fun a b : α => a < b)]

/-- Modelled from the spec: the default constructor `Vec3f()`, the zero vector from which the
witness sums are accumulated. -/
instance : Zero (Vec3f α) := ⟨⟨0, 0, 0⟩⟩

instance : Add (Vec3f α) := ⟨fun a b => ⟨a.x + b.x, a.y + b.y, a.z + b.z⟩⟩

instance : Sub (Vec3f α) := ⟨fun a b => ⟨a.x - b.x, a.y - b.y, a.z - b.z⟩⟩

instance : Neg (Vec3f α) := ⟨fun a => ⟨-a.x, -a.y, -a.z⟩⟩

/-- The product `Vec3f * BVH_REAL`: scaling of a vector. -/
instance : HMul (Vec3f α) α (Vec3f α) := ⟨fun a t => ⟨a.x * t, a.y * t, a.z * t⟩⟩

/-- Modelled from the spec: `Vec3f::dot`. -/
def Vec3f.dot (a b : Vec3f α) : α := a.x * b.x + a.y * b.y + a.z * b.z

/-- Modelled from the spec: `Vec3f::length`, the Euclidean norm; `sqrt` stands for `std::sqrt`. -/
def Vec3f.length (sqrt : α → α) (a : Vec3f α) : α := sqrt (a.dot a)

/-- The identity matrix. -/
def Matrix3f.identity : Matrix3f α := ⟨1, 0, 0, 0, 1, 0, 0, 0, 1⟩

/-- Modelled from the spec: `Matrix3f * Vec3f`, multiply-vector. -/
def Matrix3f.mulVec (m : Matrix3f α) (v : Vec3f α) : Vec3f α :=
  ⟨m.xx * v.x + m.xy * v.y + m.xz * v.z,
   m.yx * v.x + m.yy * v.y + m.yz * v.z,
   m.zx * v.x + m.zy * v.y + m.zz * v.z⟩

/-- Modelled from the spec: `Matrix3f * Matrix3f`. -/
def Matrix3f.mul (m n : Matrix3f α) : Matrix3f α :=
  ⟨m.xx * n.xx + m.xy * n.yx + m.xz * n.zx,
   m.xx * n.xy + m.xy * n.yy + m.xz * n.zy,
   m.xx * n.xz + m.xy * n.yz + m.xz * n.zz,
   m.yx * n.xx + m.yy * n.yx + m.yz * n.zx,
   m.yx * n.xy + m.yy * n.yy + m.yz * n.zy,
   m.yx * n.xz + m.yy * n.yz + m.yz * n.zz,
   m.zx * n.xx + m.zy * n.yx + m.zz * n.zx,
   m.zx * n.xy + m.zy * n.yy + m.zz * n.zy,
   m.zx * n.xz + m.zy * n.yz + m.zz * n.zz⟩

/-- Modelled from the spec: `Matrix3f::transpose`. -/
def Matrix3f.transpose (m : Matrix3f α) : Matrix3f α :=
  ⟨m.xx, m.yx, m.zx, m.xy, m.yy, m.zy, m.xz, m.yz, m.zz⟩

/-- Modelled from the spec: `Matrix3f::transposeTimes`, transpose-times-other `mᵀ · n`. -/
def Matrix3f.transposeTimes (m n : Matrix3f α) : Matrix3f α :=
  ⟨m.xx * n.xx + m.yx * n.yx + m.zx * n.zx,
   m.xx * n.xy + m.yx * n.yy + m.zx * n.zy,
   m.xx * n.xz + m.yx * n.yz + m.zx * n.zz,
   m.xy * n.xx + m.yy * n.yx + m.zy * n.zx,
   m.xy * n.xy + m.yy * n.yy + m.zy * n.zy,
   m.xy * n.xz + m.yy * n.yz + m.zy * n.zz,
   m.xz * n.xx + m.yz * n.yx + m.zz * n.zx,
   m.xz * n.xy + m.yz * n.yy + m.zz * n.zy,
   m.xz * n.xz + m.yz * n.yz + m.zz * n.zz⟩

/-- A rotation matrix is orthogonal: `mᵀ · m` is the identity. -/
def Matrix3f.IsOrthogonal (m : Matrix3f α) : Prop := m.transposeTimes m = Matrix3f.identity

instance [DecidableEq α] (m : Matrix3f α) : Decidable m.IsOrthogonal :=
  inferInstanceAs (Decidable (m.transposeTimes m = Matrix3f.identity))

/-- The accessor `SimpleTransform::getRotation`. -/
def SimpleTransform.getRotation (tf : SimpleTransform α) : Matrix3f α := tf.R

/-- Modelled from the spec: `SimpleTransform::transform`, `apply(v) = R·v + t`. -/
def SimpleTransform.transform (tf : SimpleTransform α) (v : Vec3f α) : Vec3f α :=
  tf.R.mulVec v + tf.T

/-- Modelled from the spec: `SimpleTransform::inverse`, the transform `v ↦ Rᵀ·(v − t)`. -/
def SimpleTransform.inverse (tf : SimpleTransform α) : SimpleTransform α :=
  ⟨tf.R.transpose, tf.R.transpose.mulVec (-tf.T)⟩

/-- Modelled from the spec: `SimpleTransform::inverseTimes`, `this⁻¹ ∘ other`. -/
def SimpleTransform.inverseTimes (tf other : SimpleTransform α) : SimpleTransform α :=
  ⟨tf.R.transposeTimes other.R, tf.R.transpose.mulVec (other.T - tf.T)⟩

/-- Modelled from the spec: the composition `t ∘ tf` of two transforms,
`(t ∘ tf).apply v = t.apply (tf.apply v)`. -/
def SimpleTransform.compose (t tf : SimpleTransform α) : SimpleTransform α :=
  ⟨t.R.mul tf.R, t.R.mulVec tf.T + t.T⟩

end Algebra

/-! ## Solver data model (namespace `details` of the source) -/

namespace details

/-- Modelled from the spec: `GJK::SimplexV` (declared in the absent `gjk.h`), a support point:
the direction `d` used to query the support and the point `w` of the Minkowski difference. -/
structure SimplexV (α : Type) where
  d : Vec3f α
  w : Vec3f α

/-- Modelled from the spec: `GJK::Simplex` (declared in the absent `gjk.h`): the support
vertices `c[i]`, their barycentric weights `p[i]` and the `rank`; only the indices below `rank`
(at most 4) are ever read. -/
structure Simplex (α : Type) where
  c : Nat → SimplexV α
  p : Nat → α
  rank : Nat

/-- Modelled from the spec: `MinkowskiDiff` (declared in the absent `gjk.h`): the two shape
references `shapes[0]`, `shapes[1]` and the two derived transforms. -/
structure MinkowskiDiff (α Shape : Type) where
  shapes0 : Shape
  shapes1 : Shape
  toshape1 : Matrix3f α
  toshape0 : SimpleTransform α

/-- Modelled from the spec: `GJK::Status` (declared in the absent `gjk.h`).  The source names
`Valid` (the spec's Separated) and `Inside` (the spec's Enclosing); `Failed` is the spec's
Degenerate. -/
inductive GJKStatus where
  | Valid
  | Inside
  | Failed
deriving DecidableEq

/-- Modelled from the spec: `EPA::Status` (declared in the absent `gjk.h`).  The source names
only `Failed`; the other five are the statuses the spec lists. -/
inductive EPAStatus where
  | Valid
  | Touching
  | Degenerate
  | OutOfVertices
  | OutOfFaces
  | Failed
deriving DecidableEq

/-- The members of a `details::GJK` object the facade reads after `evaluate`: the status that
`evaluate` returned and `getSimplex()`. -/
structure GJK (α Shape : Type) where
  shape : MinkowskiDiff α Shape
  status : GJKStatus
  simplex : Simplex α

/-- The members of a `details::EPA` object the facade reads after `evaluate`: the status that
`evaluate` returned, `result`, `normal` and `depth`. -/
structure EPA (α : Type) where
  status : EPAStatus
  result : Simplex α
  normal : Vec3f α
  depth : α

/-- The code of namespace `details` that `narrowphase.h` calls and does not define: the local
support function of a shape, `GJK::evaluate` and `EPA::evaluate`, each a deterministic function
of its arguments. -/
structure Solvers (α Shape : Type) where
  getSupport : Shape → Vec3f α → Vec3f α
  gjk_evaluate : MinkowskiDiff α Shape → Vec3f α → GJK α Shape
  epa_evaluate : GJK α Shape → Vec3f α → EPA α

section Support

variable {α Shape : Type} [Zero α] [One α] [Add α] [Sub α] [Neg α] [Mul α] [OfScientific α]
  [LT α] [DecidableRel (fun a b : α => a < b)]

/-- Modelled from the spec: `MinkowskiDiff::support0`, the support of shape 0 in its own frame. -/
def MinkowskiDiff.support0 (D : Solvers α Shape) (shape : MinkowskiDiff α Shape)
    (d : Vec3f α) : Vec3f α :=
  D.getSupport shape.shapes0 d

/-- Modelled from the spec: `MinkowskiDiff::support1`: rotate `d` by `toshape1`, evaluate the
support of shape 1 in its own frame, map the result back with `toshape0`. -/
def MinkowskiDiff.support1 (D : Solvers α Shape) (shape : MinkowskiDiff α Shape)
    (d : Vec3f α) : Vec3f α :=
  shape.toshape0.transform (D.getSupport shape.shapes1 (shape.toshape1.mulVec d))

/-- Modelled from the spec: `MinkowskiDiff::support(d, index)`, a point from the designated
shape. -/
def MinkowskiDiff.support (D : Solvers α Shape) (shape : MinkowskiDiff α Shape)
    (d : Vec3f α) (index : Nat) : Vec3f α :=
  if index ≠ 0 then shape.support1 D d else shape.support0 D d

end Support

end details

/-! ## The query functions of `narrowphase.h` -/

open details

/-- The part of `details::GJKInitializer<S>` that `shapeDistance` uses: the handle constructor
and the support function pointer. -/
structure GJKInitializer (S α Obj Fn : Type) where
  createGJKObject : S → SimpleTransform α → Obj
  getSupportFunction : Fn

/-- The three optional output arguments of the intersection queries.  `none` is a `NULL`
pointer; `some v` is a pointer to a location that currently holds `v`. -/
structure Outputs (α : Type) where
  contact_points : Option (Vec3f α)
  penetration_depth : Option α
  normal : Option (Vec3f α)
deriving DecidableEq

section Queries

variable {α Shape : Type} [Zero α] [One α] [Add α] [Sub α] [Neg α] [Mul α] [OfScientific α]
  [LT α] [DecidableRel (fun a b : α => a < b)]

/-- The function `shapeDistance`, lines 103-122: the path through the external GJK library.
`GJKDistance o1 f1 o2 f2 dist` returns its boolean and the value it leaves in `*dist`, where
`dist` is the value `*dist` holds before the call.  Returns the boolean and the final `*dist`;
the two `deleteGJKObject` calls only release memory. -/
def shapeDistance {S1 S2 Obj Fn : Type} (I1 : GJKInitializer S1 α Obj Fn)
    (I2 : GJKInitializer S2 α Obj Fn) (GJKDistance : Obj → Fn → Obj → Fn → α → Bool × α)
    (sqrt : α → α) (s1 : S1) (tf1 : SimpleTransform α) (s2 : S2) (tf2 : SimpleTransform α)
    (dist : α) : Bool × α :=
  let o1 := I1.createGJKObject s1 tf1
  let o2 := I2.createGJKObject s2 tf2
  let r := GJKDistance o1 I1.getSupportFunction o2 I2.getSupportFunction dist
  let res := r.1
  let dist := r.2
  let dist := if dist > 0 then sqrt dist else dist
  (res, dist)

/-- The function `shapeDistance2`, lines 133-165.  Returns the boolean and the value written to
`*distance`. -/
def shapeDistance2 (D : Solvers α Shape) (sqrt : α → α) (s1 : Shape) (tf1 : SimpleTransform α)
    (s2 : Shape) (tf2 : SimpleTransform α) : Bool × α :=
  let guess : Vec3f α := ⟨1, 0, 0⟩
  let shape : MinkowskiDiff α Shape :=
    { shapes0 := s1
      shapes1 := s2
      toshape1 := tf2.getRotation.transposeTimes tf1.getRotation
      toshape0 := tf1.inverseTimes tf2 }
  let gjk := D.gjk_evaluate shape (-guess)
  if gjk.status = GJKStatus.Valid then
    let w0 := (List.range gjk.simplex.rank).foldl
      (fun w0 i => w0 + shape.support D (gjk.simplex.c i).d 0 * gjk.simplex.p i) 0
    let w1 := (List.range gjk.simplex.rank).foldl
      (fun w1 i => w1 + shape.support D (-(gjk.simplex.c i).d) 1 * gjk.simplex.p i) 0
    (true, (w0 - w1).length sqrt)
  else
    (false, -1)

/-- The function `shapeIntersect2`, lines 167-207.  Returns the boolean and the state of the
three output locations on return. -/
def shapeIntersect2 (D : Solvers α Shape) (s1 : Shape) (tf1 : SimpleTransform α)
    (s2 : Shape) (tf2 : SimpleTransform α) (out : Outputs α) : Bool × Outputs α :=
  let guess : Vec3f α := ⟨1, 0, 0⟩
  let shape : MinkowskiDiff α Shape :=
    { shapes0 := s1
      shapes1 := s2
      toshape1 := tf2.getRotation.transposeTimes tf1.getRotation
      toshape0 := tf1.inverseTimes tf2 }
  let gjk := D.gjk_evaluate shape (-guess)
  match gjk.status with
  | GJKStatus.Inside =>
    let epa := D.epa_evaluate gjk (-guess)
    if epa.status ≠ EPAStatus.Failed then
      let w0 := (List.range epa.result.rank).foldl
        (fun w0 i => w0 + shape.support D (epa.result.c i).d 0 * epa.result.p i) 0
      (true,
        { penetration_depth := out.penetration_depth.map (fun _ => -epa.depth)
          normal := out.normal.map (fun _ => -epa.normal)
          contact_points :=
            out.contact_points.map
              (fun _ => tf1.transform (w0 - epa.normal * (epa.depth * 0.5))) })
    else (false, out)
  | _ => (false, out)

/-- The overload `shapeTriangleIntersect2(s, tf, P1, P2, P3, ...)`, lines 210-251.  `Triangle2`
is the constructor of the triangle shape. -/
def shapeTriangleIntersect2 (D : Solvers α Shape)
    (Triangle2 : Vec3f α → Vec3f α → Vec3f α → Shape) (s : Shape) (tf : SimpleTransform α)
    (P1 P2 P3 : Vec3f α) (out : Outputs α) : Bool × Outputs α :=
  let tri := Triangle2 P1 P2 P3
  let guess : Vec3f α := ⟨1, 0, 0⟩
  let shape : MinkowskiDiff α Shape :=
    { shapes0 := s
      shapes1 := tri
      toshape1 := tf.getRotation
      toshape0 := tf.inverse }
  let gjk := D.gjk_evaluate shape (-guess)
  match gjk.status with
  | GJKStatus.Inside =>
    let epa := D.epa_evaluate gjk (-guess)
    if epa.status ≠ EPAStatus.Failed then
      let w0 := (List.range epa.result.rank).foldl
        (fun w0 i => w0 + shape.support D (epa.result.c i).d 0 * epa.result.p i) 0
      (true,
        { penetration_depth := out.penetration_depth.map (fun _ => -epa.depth)
          normal := out.normal.map (fun _ => -epa.normal)
          contact_points :=
            out.contact_points.map
              (fun _ => tf.transform (w0 - epa.normal * (epa.depth * 0.5))) })
    else (false, out)
  | _ => (false, out)

/-- The overload `shapeTriangleIntersect2(s, tf, P1, P2, P3, R, T, ...)`, lines 253-295. -/
def shapeTriangleIntersect2RT (D : Solvers α Shape)
    (Triangle2 : Vec3f α → Vec3f α → Vec3f α → Shape) (s : Shape) (tf : SimpleTransform α)
    (P1 P2 P3 : Vec3f α) (R : Matrix3f α) (T : Vec3f α) (out : Outputs α) :
    Bool × Outputs α :=
  let tri := Triangle2 P1 P2 P3
  let tf2 : SimpleTransform α := ⟨R, T⟩
  let guess : Vec3f α := ⟨1, 0, 0⟩
  let shape : MinkowskiDiff α Shape :=
    { shapes0 := s
      shapes1 := tri
      toshape1 := tf2.getRotation.transposeTimes tf.getRotation
      toshape0 := tf.inverseTimes tf2 }
  let gjk := D.gjk_evaluate shape (-guess)
  match gjk.status with
  | GJKStatus.Inside =>
    let epa := D.epa_evaluate gjk (-guess)
    if epa.status ≠ EPAStatus.Failed then
      let w0 := (List.range epa.result.rank).foldl
        (fun w0 i => w0 + shape.support D (epa.result.c i).d 0 * epa.result.p i) 0
      (true,
        { penetration_depth := out.penetration_depth.map (fun _ => -epa.depth)
          normal := out.normal.map (fun _ => -epa.normal)
          contact_points :=
            out.contact_points.map
              (fun _ => tf.transform (w0 - epa.normal * (epa.depth * 0.5))) })
    else (false, out)
  | _ => (false, out)

end Queries

/-! ## Binary64 arithmetic -/

/-- Modelled from the spec: "all reals are double-precision".  The integer nearest to `m`, ties
going to the even neighbour (the rounding of IEEE 754 binary64 arithmetic). -/
def roundHalfEven (m : ℚ) : ℤ :=
  if m - ⌊m⌋ < 1 / 2 then ⌊m⌋
  else if 1 / 2 < m - ⌊m⌋ then ⌊m⌋ + 1
  else if ⌊m⌋ % 2 = 0 then ⌊m⌋ else ⌊m⌋ + 1

/-- Modelled from the spec: "all reals are double-precision".  The binary64 value nearest to
`x`: `x` is scaled by the power of two that brings its magnitude into `[2^52, 2^53)`, rounded to
an integer and scaled back.  The exponent range is not bounded: overflow and subnormal numbers
are left out, as are NaN and the sign of zero. -/
def roundBinary64 (x : ℚ) : ℚ :=
  if x = 0 then 0
  else roundHalfEven (x / 2 ^ (Int.log 2 |x| - 52)) * 2 ^ (Int.log 2 |x| - 52)

/-- Modelled from the spec: "all reals are double-precision".  A `BVH_REAL` value of the code,
given by the rational number it denotes; every arithmetic operation rounds its exact result
with `roundBinary64`. -/
structure Double where
  val : ℚ
deriving DecidableEq

instance : Zero Double := ⟨⟨0⟩⟩

instance : One Double := ⟨⟨1⟩⟩

instance : Add Double := ⟨fun a b => ⟨roundBinary64 (a.val + b.val)⟩⟩

instance : Sub Double := ⟨fun a b => ⟨roundBinary64 (a.val - b.val)⟩⟩

instance : Mul Double := ⟨fun a b => ⟨roundBinary64 (a.val * b.val)⟩⟩

instance : Neg Double := ⟨fun a => ⟨-a.val⟩⟩

/-- A decimal literal denotes the binary64 value nearest to it. -/
instance : OfScientific Double :=
  ⟨fun m s e => ⟨roundBinary64 (if s then (m : ℚ) / 10 ^ e else (m : ℚ) * 10 ^ e)⟩⟩

instance : LT Double := ⟨fun a b => a.val < b.val⟩

instance : DecidableRel (fun a b : Double => a < b) :=
  fun a b => inferInstanceAs (Decidable (a.val < b.val))

/-! ## Vocabulary of the statements -/

section VocabularyAnyScalar

variable {α Shape : Type} [Zero α] [One α] [Add α] [Sub α] [Neg α] [Mul α] [OfScientific α]
  [LT α] [DecidableRel (fun a b : α => a < b)]

/-- The fixed initial guess `Vec3f guess(1, 0, 0)` of every native query. -/
def guess : Vec3f α := ⟨1, 0, 0⟩

/-- The Minkowski difference that `shapeDistance2`, `shapeIntersect2` and the `(R, T)` triangle
overload build from their inputs: `toshape1 = R2ᵀ · R1`, `toshape0 = tf1⁻¹ ∘ tf2`. -/
def minkowski (s1 : Shape) (tf1 : SimpleTransform α) (s2 : Shape) (tf2 : SimpleTransform α) :
    MinkowskiDiff α Shape :=
  ⟨s1, s2, tf2.R.transposeTimes tf1.R, tf1.inverseTimes tf2⟩

/-- The GJK run of a native query: `gjk.evaluate(shape, -guess)`. -/
def gjkRun (D : Solvers α Shape) (shape : MinkowskiDiff α Shape) : GJK α Shape :=
  D.gjk_evaluate shape (-guess)

/-- The EPA run of an intersection query on the GJK result: `epa.evaluate(gjk, -guess)`. -/
def epaRun (D : Solvers α Shape) (shape : MinkowskiDiff α Shape) : EPA α :=
  D.epa_evaluate (gjkRun D shape) (-guess)

/-- The transform with identity rotation and translation `t`. -/
def translation (t : Vec3f α) : SimpleTransform α := ⟨Matrix3f.identity, t⟩

/-- The rotation by a quarter turn about the z axis. -/
def quarterTurnZ : Matrix3f α := ⟨0, -1, 0, 1, 0, 0, 0, 0, 1⟩

/-- The unit cube. -/
def unitBox : Vec3f α := ⟨1, 1, 1⟩

/-- The simplex of a single support vertex of direction `(1, 0, 0)` and weight 1. -/
def vertexX : Simplex α :=
  { c := fun _ => ⟨⟨1, 0, 0⟩, 0⟩
    p := fun _ => 1
    rank := 1 }

/-- All three output pointers given, each location holding zero. -/
def allOutputs : Outputs α := ⟨some 0, some 0, some 0⟩

/-- The local support function of an axis-aligned box given by its half side lengths `half`:
the corner in the octant of the direction. -/
def halfBoxSupport (half d : Vec3f α) : Vec3f α :=
  ⟨if 0 < d.x then half.x else -half.x,
   if 0 < d.y then half.y else -half.y,
   if 0 < d.z then half.z else -half.z⟩

/-- A solver instance on boxes given by their half side lengths whose GJK and EPA runs report
the given status, simplex and EPA record, whatever the query; it fixes what the solvers answer
on one concrete query. -/
def fixedHalfBoxSolvers (gs : GJKStatus) (sx : Simplex α) (e : EPA α) : Solvers α (Vec3f α) :=
  { getSupport := halfBoxSupport
    gjk_evaluate := fun shape _ => ⟨shape, gs, sx⟩
    epa_evaluate := fun _ _ => e }

/-- A solver instance for two axis-aligned cubes of side `side`, the second displaced along x:
GJK reports `Inside` when the x offset of the second cube in the frame of the first,
`toshape0.T.x`, is below `side`, and `Valid` otherwise; the simplex and the EPA record are the
given ones.  It is a deterministic function of the Minkowski difference. -/
def offsetSolvers (side : α) (sx : Simplex α) (e : EPA α) : Solvers α (Vec3f α) :=
  { getSupport := halfBoxSupport
    gjk_evaluate := fun shape _ =>
      ⟨shape, if shape.toshape0.T.x < side then GJKStatus.Inside else GJKStatus.Valid, sx⟩
    epa_evaluate := fun _ _ => e }

/-- The simplex of a single support vertex of direction `(1, 1, 1)` and weight 1. -/
def vertexDiag : Simplex α :=
  { c := fun _ => ⟨⟨1, 1, 1⟩, 0⟩
    p := fun _ => 1
    rank := 1 }

/-- The EPA record of two boxes touching along x: status `Touching`, depth 0, normal
`(1, 0, 0)`, witness vertex `vertexDiag`. -/
def epaTouchingX : EPA α :=
  { status := EPAStatus.Touching, result := vertexDiag, normal := ⟨1, 0, 0⟩, depth := 0 }

end VocabularyAnyScalar

section Vocabulary

variable {α Shape : Type} [LinearOrderedField α]

instance : AddCommMonoid (Vec3f α) where
  add := (· + ·)
  zero := 0
  nsmul := nsmulRec
  add_assoc a b c := by
    ext
    · exact add_assoc a.x b.x c.x
    · exact add_assoc a.y b.y c.y
    · exact add_assoc a.z b.z c.z
  zero_add a := by
    ext
    · exact zero_add a.x
    · exact zero_add a.y
    · exact zero_add a.z
  add_zero a := by
    ext
    · exact add_zero a.x
    · exact add_zero a.y
    · exact add_zero a.z
  add_comm a b := by
    ext
    · exact add_comm a.x b.x
    · exact add_comm a.y b.y
    · exact add_comm a.z b.z

/-- The witness sum `Σ_{i < rank} support(d_i, 0) · p_i` on shape 0 over the vertices of a
simplex. -/
def witness0 (D : Solvers α Shape) (shape : MinkowskiDiff α Shape) (sx : Simplex α) : Vec3f α :=
  ∑ i in Finset.range sx.rank, shape.support D (sx.c i).d 0 * sx.p i

/-- The witness sum `Σ_{i < rank} support(−d_i, 1) · p_i` on shape 1 over the vertices of a
simplex. -/
def witness1 (D : Solvers α Shape) (shape : MinkowskiDiff α Shape) (sx : Simplex α) : Vec3f α :=
  ∑ i in Finset.range sx.rank, shape.support D (-(sx.c i).d) 1 * sx.p i

/-- The outputs an intersection query leaves on a hit: every non-`NULL` location is overwritten
with the negated EPA depth, the negated EPA normal, and the point
`tf.transform(w0 − normal · (depth · 0.5))`. -/
def hitOutputs (D : Solvers α Shape) (tf : SimpleTransform α) (shape : MinkowskiDiff α Shape)
    (out : Outputs α) : Outputs α :=
  let epa := epaRun D shape
  { penetration_depth := out.penetration_depth.map (fun _ => -epa.depth)
    normal := out.normal.map (fun _ => -epa.normal)
    contact_points := out.contact_points.map
      (fun _ => tf.transform (witness0 D shape epa.result - epa.normal * (epa.depth / 2))) }

/-- The result of the block shared by the three intersection queries (lines 179-206, 223-250,
267-294) as a function of the GJK and EPA runs on the Minkowski difference `shape`. -/
def intersectResult (D : Solvers α Shape) (tf : SimpleTransform α)
    (shape : MinkowskiDiff α Shape) (out : Outputs α) : Bool × Outputs α :=
  if (gjkRun D shape).status = GJKStatus.Inside ∧ (epaRun D shape).status ≠ EPAStatus.Failed
  then (true, hitOutputs D tf shape out) else (false, out)

/-- The local support function of an axis-aligned box with side lengths `side`: the corner in
the octant of the direction. -/
def boxSupport (side d : Vec3f α) : Vec3f α :=
  ⟨if 0 < d.x then side.x / 2 else -side.x / 2,
   if 0 < d.y then side.y / 2 else -side.y / 2,
   if 0 < d.z then side.z / 2 else -side.z / 2⟩

/-- A solver instance on boxes whose GJK and EPA runs report the given status, simplex and EPA
record, whatever the query; it fixes what the solvers answer on one concrete query. -/
def fixedSolvers (gs : GJKStatus) (sx : Simplex α) (e : EPA α) : Solvers α (Vec3f α) :=
  { getSupport := boxSupport
    gjk_evaluate := fun shape _ => ⟨shape, gs, sx⟩
    epa_evaluate := fun _ _ => e }

/-- A face of the Minkowski difference of two unit cubes one of which is shifted along x: three
support directions in the half space `x > 0`, the first two with weight 1/2. -/
def faceX : Simplex α :=
  { c := fun i => if i = 0 then ⟨⟨1, 1, 1⟩, 0⟩ else if i = 1 then ⟨⟨1, -1, -1⟩, 0⟩
      else ⟨⟨1, -1, 1⟩, 0⟩
    p := fun i => if i = 0 then 1 / 2 else if i = 1 then 1 / 2 else 0
    rank := 3 }

/-- The EPA record of two unit cubes overlapping by `depth` along x: normal `(1, 0, 0)`,
witness face `faceX`. -/
def epaX (status : EPAStatus) (depth : α) : EPA α :=
  { status := status, result := faceX, normal := ⟨1, 0, 0⟩, depth := depth }

end Vocabulary

/-! ## Auxiliary lemmas -/

section LemmasAnyScalar

variable {α : Type}

/-! ### Componentwise form of the vector operations -/

@[simp]
theorem Vec3f.zero_x [Zero α] : (0 : Vec3f α).x = 0 := rfl

@[simp]
theorem Vec3f.zero_y [Zero α] : (0 : Vec3f α).y = 0 := rfl

@[simp]
theorem Vec3f.zero_z [Zero α] : (0 : Vec3f α).z = 0 := rfl

@[simp]
theorem Vec3f.add_x [Add α] (a b : Vec3f α) : (a + b).x = a.x + b.x := rfl

@[simp]
theorem Vec3f.add_y [Add α] (a b : Vec3f α) : (a + b).y = a.y + b.y := rfl

@[simp]
theorem Vec3f.add_z [Add α] (a b : Vec3f α) : (a + b).z = a.z + b.z := rfl

@[simp]
theorem Vec3f.sub_x [Sub α] (a b : Vec3f α) : (a - b).x = a.x - b.x := rfl

@[simp]
theorem Vec3f.sub_y [Sub α] (a b : Vec3f α) : (a - b).y = a.y - b.y := rfl

@[simp]
theorem Vec3f.sub_z [Sub α] (a b : Vec3f α) : (a - b).z = a.z - b.z := rfl

@[simp]
theorem Vec3f.neg_x [Neg α] (a : Vec3f α) : (-a).x = -a.x := rfl

@[simp]
theorem Vec3f.neg_y [Neg α] (a : Vec3f α) : (-a).y = -a.y := rfl

@[simp]
theorem Vec3f.neg_z [Neg α] (a : Vec3f α) : (-a).z = -a.z := rfl

@[simp]
theorem Vec3f.mul_x [Mul α] (a : Vec3f α) (t : α) : (a * t).x = a.x * t := rfl

@[simp]
theorem Vec3f.mul_y [Mul α] (a : Vec3f α) (t : α) : (a * t).y = a.y * t := rfl

@[simp]
theorem Vec3f.mul_z [Mul α] (a : Vec3f α) (t : α) : (a * t).z = a.z * t := rfl

/-! ### Constructor form of the vector operations -/

theorem Vec3f.mk_add_mk [Add α] (a b c d e f : α) :
    Vec3f.mk a b c + Vec3f.mk d e f = Vec3f.mk (a + d) (b + e) (c + f) := rfl

theorem Vec3f.mk_sub_mk [Sub α] (a b c d e f : α) :
    Vec3f.mk a b c - Vec3f.mk d e f = Vec3f.mk (a - d) (b - e) (c - f) := rfl

theorem Vec3f.neg_mk [Neg α] (a b c : α) : -Vec3f.mk a b c = Vec3f.mk (-a) (-b) (-c) := rfl

theorem Vec3f.mk_mul [Mul α] (a b c t : α) :
    Vec3f.mk a b c * t = Vec3f.mk (a * t) (b * t) (c * t) := rfl

/-! ### The queries as functions of the Minkowski-difference setup -/

/-- In any arithmetic: two queries on the same shapes whose setups `toshape1`, `toshape0`
coincide have the same hit flag, the same penetration depth and the same distance result. -/
theorem results_of_same_setup {Shape : Type} [Zero α] [One α] [Add α] [Sub α] [Neg α] [Mul α]
    [OfScientific α] (D : Solvers α Shape) (sqrt : α → α) (s1 : Shape)
    (tf1 tf1m : SimpleTransform α) (s2 : Shape) (tf2 tf2m : SimpleTransform α) (out : Outputs α)
    (h1 : tf2m.getRotation.transposeTimes tf1m.getRotation
      = tf2.getRotation.transposeTimes tf1.getRotation)
    (h0 : tf1m.inverseTimes tf2m = tf1.inverseTimes tf2) :
    (shapeIntersect2 D s1 tf1m s2 tf2m out).1 = (shapeIntersect2 D s1 tf1 s2 tf2 out).1 ∧
    (shapeIntersect2 D s1 tf1m s2 tf2m out).2.penetration_depth
      = (shapeIntersect2 D s1 tf1 s2 tf2 out).2.penetration_depth ∧
    shapeDistance2 D sqrt s1 tf1m s2 tf2m = shapeDistance2 D sqrt s1 tf1 s2 tf2 := by
  simp only [shapeIntersect2, shapeDistance2, h1, h0]
  refine ⟨?_, ?_, trivial⟩
  · split
    · split <;> rfl
    · rfl
  · split
    · split <;> rfl
    · rfl

/-- In any arithmetic: on a hit the contact point written is
`tf1.transform(w0 - normal * (depth * 0.5))`, with `w0` accumulated by the loop of lines
190-193. -/
theorem contact_of_hit {Shape : Type} [Zero α] [One α] [Add α] [Sub α] [Neg α] [Mul α]
    [OfScientific α] (D : Solvers α Shape) (s1 : Shape) (tf1 : SimpleTransform α) (s2 : Shape)
    (tf2 : SimpleTransform α) (out : Outputs α)
    (hit : (shapeIntersect2 D s1 tf1 s2 tf2 out).1 = true) :
    (shapeIntersect2 D s1 tf1 s2 tf2 out).2.contact_points =
      out.contact_points.map (fun _ => tf1.transform
        ((List.range (epaRun D (minkowski s1 tf1 s2 tf2)).result.rank).foldl
            (fun w0 i => w0 + (minkowski s1 tf1 s2 tf2).support D
                ((epaRun D (minkowski s1 tf1 s2 tf2)).result.c i).d 0
              * (epaRun D (minkowski s1 tf1 s2 tf2)).result.p i) 0
          - (epaRun D (minkowski s1 tf1 s2 tf2)).normal
            * ((epaRun D (minkowski s1 tf1 s2 tf2)).depth * 0.5))) := by
  revert hit
  simp only [shapeIntersect2, epaRun, gjkRun, minkowski, guess, SimpleTransform.getRotation]
  split
  · split
    · intro _
      rfl
    · intro h
      exact absurd h (by simp)
  · intro h
    exact absurd h (by simp)

end LemmasAnyScalar

section Lemmas

variable {α Shape : Type} [LinearOrderedField α]

/-! ### The witness loops and the closed forms of the queries -/

theorem foldl_range_eq_sum (f : Nat → Vec3f α) (n : Nat) :
    (List.range n).foldl (fun w i => w + f i) 0 = ∑ i in Finset.range n, f i := by
  induction n with
  | zero => rfl
  | succ k ih => rw [List.range_succ, List.foldl_append, ih, Finset.sum_range_succ]; rfl

theorem half_eq : (0.5 : α) = 1 / 2 := by norm_num

/-- The intersection query in closed form: the case split of lines 181-206. -/
theorem shapeIntersect2_eq (D : Solvers α Shape) (s1 : Shape) (tf1 : SimpleTransform α)
    (s2 : Shape) (tf2 : SimpleTransform α) (out : Outputs α) :
    shapeIntersect2 D s1 tf1 s2 tf2 out = intersectResult D tf1 (minkowski s1 tf1 s2 tf2) out := by
  simp only [shapeIntersect2, foldl_range_eq_sum, half_eq, gjkRun, epaRun, minkowski, guess,
    hitOutputs, witness0, SimpleTransform.getRotation, intersectResult]
  split <;> simp_all [div_eq_mul_inv]

/-- The `(R, T)` triangle overload in closed form. -/
theorem shapeTriangleIntersect2RT_eq (D : Solvers α Shape)
    (Triangle2 : Vec3f α → Vec3f α → Vec3f α → Shape) (s : Shape) (tf : SimpleTransform α)
    (P1 P2 P3 : Vec3f α) (R : Matrix3f α) (T : Vec3f α) (out : Outputs α) :
    shapeTriangleIntersect2RT D Triangle2 s tf P1 P2 P3 R T out =
      intersectResult D tf (minkowski s tf (Triangle2 P1 P2 P3) ⟨R, T⟩) out := by
  simp only [shapeTriangleIntersect2RT, foldl_range_eq_sum, half_eq, gjkRun, epaRun, minkowski,
    guess, hitOutputs, witness0, SimpleTransform.getRotation, intersectResult]
  split <;> simp_all [div_eq_mul_inv]

/-- The triangle overload without `(R, T)` in closed form. -/
theorem shapeTriangleIntersect2_eq (D : Solvers α Shape)
    (Triangle2 : Vec3f α → Vec3f α → Vec3f α → Shape) (s : Shape) (tf : SimpleTransform α)
    (P1 P2 P3 : Vec3f α) (out : Outputs α) :
    shapeTriangleIntersect2 D Triangle2 s tf P1 P2 P3 out =
      intersectResult D tf ⟨s, Triangle2 P1 P2 P3, tf.R, tf.inverse⟩ out := by
  simp only [shapeTriangleIntersect2, foldl_range_eq_sum, half_eq, gjkRun, epaRun,
    guess, hitOutputs, witness0, SimpleTransform.getRotation, intersectResult]
  split <;> simp_all [div_eq_mul_inv]

/-- The distance query in closed form. -/
theorem shapeDistance2_eq (D : Solvers α Shape) (sqrt : α → α) (s1 : Shape)
    (tf1 : SimpleTransform α) (s2 : Shape) (tf2 : SimpleTransform α) :
    shapeDistance2 D sqrt s1 tf1 s2 tf2 =
      if (gjkRun D (minkowski s1 tf1 s2 tf2)).status = GJKStatus.Valid
      then (true, (witness0 D (minkowski s1 tf1 s2 tf2) (gjkRun D (minkowski s1 tf1 s2 tf2)).simplex
        - witness1 D (minkowski s1 tf1 s2 tf2)
            (gjkRun D (minkowski s1 tf1 s2 tf2)).simplex).length sqrt)
      else (false, -1) := by
  simp only [shapeDistance2, foldl_range_eq_sum, gjkRun, minkowski, guess, witness0, witness1,
    SimpleTransform.getRotation]

/-! ### Algebra of rigid motions -/

theorem Matrix3f.identity_mul (m : Matrix3f α) : Matrix3f.identity.mul m = m := by
  ext <;> simp [Matrix3f.identity, Matrix3f.mul]

theorem Matrix3f.identity_mulVec (v : Vec3f α) : Matrix3f.identity.mulVec v = v := by
  ext <;> simp [Matrix3f.identity, Matrix3f.mulVec]

theorem Matrix3f.identity_transposeTimes (m : Matrix3f α) :
    Matrix3f.identity.transposeTimes m = m := by
  ext <;> simp [Matrix3f.identity, Matrix3f.transposeTimes]

theorem Matrix3f.transposeTimes_identity (m : Matrix3f α) :
    m.transposeTimes Matrix3f.identity = m.transpose := by
  ext <;> simp [Matrix3f.identity, Matrix3f.transposeTimes, Matrix3f.transpose]

theorem Matrix3f.mul_transposeTimes_mul (a b c : Matrix3f α) :
    (a.mul b).transposeTimes (a.mul c) = b.transposeTimes ((a.transposeTimes a).mul c) := by
  ext <;> simp only [Matrix3f.mul, Matrix3f.transposeTimes] <;> ring

theorem Matrix3f.mul_transpose_mulVec (a b : Matrix3f α) (u v t : Vec3f α) :
    (a.mul b).transpose.mulVec (a.mulVec u + t - (a.mulVec v + t)) =
      b.transpose.mulVec ((a.transposeTimes a).mulVec (u - v)) := by
  ext <;> simp only [Matrix3f.mul, Matrix3f.transposeTimes, Matrix3f.transpose, Matrix3f.mulVec,
    Vec3f.add_x, Vec3f.add_y, Vec3f.add_z, Vec3f.sub_x, Vec3f.sub_y, Vec3f.sub_z] <;> ring

theorem Matrix3f.mul_mulVec (a b : Matrix3f α) (v : Vec3f α) :
    (a.mul b).mulVec v = a.mulVec (b.mulVec v) := by
  ext <;> simp only [Matrix3f.mul, Matrix3f.mulVec] <;> ring

theorem Matrix3f.mulVec_add (a : Matrix3f α) (u v : Vec3f α) :
    a.mulVec (u + v) = a.mulVec u + a.mulVec v := by
  ext <;> simp only [Matrix3f.mulVec, Vec3f.add_x, Vec3f.add_y, Vec3f.add_z] <;> ring

/-- A common rigid motion leaves `toshape1 = R2ᵀ · R1` unchanged. -/
theorem compose_toshape1 (t tf1 tf2 : SimpleTransform α) (h : t.R.IsOrthogonal) :
    (t.compose tf2).R.transposeTimes (t.compose tf1).R = tf2.R.transposeTimes tf1.R := by
  unfold Matrix3f.IsOrthogonal at h
  simp only [SimpleTransform.compose, Matrix3f.mul_transposeTimes_mul, h,
    Matrix3f.identity_mul]

/-- A common rigid motion leaves `toshape0 = tf1⁻¹ ∘ tf2` unchanged. -/
theorem compose_toshape0 (t tf1 tf2 : SimpleTransform α) (h : t.R.IsOrthogonal) :
    (t.compose tf1).inverseTimes (t.compose tf2) = tf1.inverseTimes tf2 := by
  unfold Matrix3f.IsOrthogonal at h
  simp only [SimpleTransform.compose, SimpleTransform.inverseTimes,
    Matrix3f.mul_transposeTimes_mul, Matrix3f.mul_transpose_mulVec, h, Matrix3f.identity_mul,
    Matrix3f.identity_mulVec]

/-- A common rigid motion leaves the Minkowski difference of the query unchanged. -/
theorem minkowski_compose (t : SimpleTransform α) (s1 : Shape) (tf1 : SimpleTransform α)
    (s2 : Shape) (tf2 : SimpleTransform α) (h : t.R.IsOrthogonal) :
    minkowski s1 (t.compose tf1) s2 (t.compose tf2) = minkowski s1 tf1 s2 tf2 := by
  simp only [minkowski, compose_toshape1 t tf1 tf2 h, compose_toshape0 t tf1 tf2 h]

/-- Applying a composition is applying the two transforms in turn. -/
theorem compose_transform (t tf : SimpleTransform α) (v : Vec3f α) :
    (t.compose tf).transform v = t.transform (tf.transform v) := by
  simp only [SimpleTransform.compose, SimpleTransform.transform, Matrix3f.mul_mulVec,
    Matrix3f.mulVec_add, add_assoc]

/-! ### The shared block -/

theorem intersectResult_fst (D : Solvers α Shape) (tf : SimpleTransform α)
    (shape : MinkowskiDiff α Shape) (out : Outputs α) :
    (intersectResult D tf shape out).1 = true ↔
      (gjkRun D shape).status = GJKStatus.Inside ∧ (epaRun D shape).status ≠ EPAStatus.Failed := by
  unfold intersectResult
  split <;> simp_all

theorem intersectResult_of_hit (D : Solvers α Shape) (tf : SimpleTransform α)
    (shape : MinkowskiDiff α Shape) (out : Outputs α)
    (h : (intersectResult D tf shape out).1 = true) :
    intersectResult D tf shape out = (true, hitOutputs D tf shape out) := by
  have h2 := (intersectResult_fst D tf shape out).1 h
  unfold intersectResult
  rw [if_pos h2]

theorem intersectResult_of_miss (D : Solvers α Shape) (tf : SimpleTransform α)
    (shape : MinkowskiDiff α Shape) (out : Outputs α)
    (h : ¬ ((gjkRun D shape).status = GJKStatus.Inside ∧
      (epaRun D shape).status ≠ EPAStatus.Failed)) :
    intersectResult D tf shape out = (false, out) := by
  unfold intersectResult
  rw [if_neg h]

theorem intersectResult_of_inside (D : Solvers α Shape) (tf : SimpleTransform α)
    (shape : MinkowskiDiff α Shape) (out : Outputs α)
    (h : (gjkRun D shape).status = GJKStatus.Inside)
    (h2 : (epaRun D shape).status ≠ EPAStatus.Failed) :
    intersectResult D tf shape out = (true, hitOutputs D tf shape out) := by
  unfold intersectResult
  rw [if_pos ⟨h, h2⟩]

/-- The normal an intersection query reports does not depend on the transform of the first
shape once the Minkowski difference is fixed, so a common rigid motion leaves it unchanged. -/
theorem shapeIntersect2_normal_compose (D : Solvers α Shape) (t : SimpleTransform α)
    (s1 : Shape) (tf1 : SimpleTransform α) (s2 : Shape) (tf2 : SimpleTransform α)
    (out : Outputs α) (h : t.R.IsOrthogonal) :
    (shapeIntersect2 D s1 (t.compose tf1) s2 (t.compose tf2) out).2.normal =
      (shapeIntersect2 D s1 tf1 s2 tf2 out).2.normal := by
  rw [shapeIntersect2_eq, shapeIntersect2_eq, minkowski_compose t s1 tf1 s2 tf2 h]
  unfold intersectResult
  split <;> rfl

end Lemmas

/-! ### Binary64 rounding -/

section Binary64

theorem log_two_eq (x : ℚ) (z : ℤ) (hlo : (2 : ℚ) ^ z ≤ x) (hhi : x < (2 : ℚ) ^ (z + 1)) :
    Int.log 2 x = z := by
  have hx : 0 < x := lt_of_lt_of_le (by positivity) hlo
  have h1 : z ≤ Int.log 2 x :=
    (Int.zpow_le_iff_le_log (by norm_num) hx).mp (by exact_mod_cast hlo)
  have h2 : Int.log 2 x < z + 1 :=
    (Int.lt_zpow_iff_log_lt (by norm_num) hx).mp (by exact_mod_cast hhi)
  omega

/-- A number closer than 1/2 to the integer `n` rounds to `n`. -/
theorem roundHalfEven_eq (m : ℚ) (n : ℤ) (h : |m - n| < 1 / 2) : roundHalfEven m = n := by
  rw [abs_lt] at h
  obtain ⟨h1, h2⟩ := h
  unfold roundHalfEven
  rcases le_or_lt (n : ℚ) m with hle | hlt
  · have hf : ⌊m⌋ = n := Int.floor_eq_iff.mpr ⟨hle, by linarith⟩
    rw [hf, if_pos (by linarith)]
  · have hf : ⌊m⌋ = n - 1 :=
      Int.floor_eq_iff.mpr ⟨by push_cast; linarith, by push_cast; linarith⟩
    rw [hf]
    have h3 : ¬ (m - ((n - 1 : ℤ) : ℚ) < 1 / 2) := by push_cast; linarith
    have h4 : 1 / 2 < m - ((n - 1 : ℤ) : ℚ) := by push_cast; linarith
    rw [if_neg h3, if_pos h4]
    ring

/-- A number halfway above the odd integer `f` rounds up, to the even `f + 1`. -/
theorem roundHalfEven_tie_odd (m : ℚ) (f : ℤ) (h : m = f + 1 / 2) (hodd : f % 2 = 1) :
    roundHalfEven m = f + 1 := by
  have hf : ⌊m⌋ = f := Int.floor_eq_iff.mpr ⟨by linarith, by linarith⟩
  unfold roundHalfEven
  rw [hf]
  have h3 : ¬ (m - (f : ℚ) < 1 / 2) := by linarith
  have h4 : ¬ (1 / 2 < m - (f : ℚ)) := by linarith
  have h5 : ¬ (f % 2 = 0) := by omega
  rw [if_neg h3, if_neg h4, if_neg h5]

/-- The rounding of `x` once its binade `[2^(e+52), 2^(e+53))` and the nearest multiple
`n · 2^e` are known. -/
theorem roundBinary64_eq (x : ℚ) (e n : ℤ) (hlo : (2 : ℚ) ^ (e + 52) ≤ |x|)
    (hhi : |x| < (2 : ℚ) ^ (e + 52 + 1)) (hn : |x / 2 ^ e - n| < 1 / 2) :
    roundBinary64 x = n * 2 ^ e := by
  have hx : x ≠ 0 := by
    intro h0
    rw [h0, abs_zero] at hlo
    exact absurd hlo (not_le.mpr (by positivity))
  have hl : Int.log 2 |x| - 52 = e := by
    rw [log_two_eq |x| (e + 52) hlo hhi]
    ring
  unfold roundBinary64
  rw [if_neg hx, hl, roundHalfEven_eq _ n hn]

theorem roundBinary64_of_pos (x : ℚ) (e n : ℤ) (hlo : (2 : ℚ) ^ (e + 52) ≤ x)
    (hhi : x < (2 : ℚ) ^ (e + 52 + 1)) (h1 : (n : ℚ) - 1 / 2 < x / 2 ^ e)
    (h2 : x / 2 ^ e < n + 1 / 2) : roundBinary64 x = n * 2 ^ e := by
  have hx : 0 < x := lt_of_lt_of_le (by positivity) hlo
  apply roundBinary64_eq
  · rwa [abs_of_pos hx]
  · rwa [abs_of_pos hx]
  · rw [abs_lt]
    constructor <;> linarith

theorem roundBinary64_of_pos_tie_odd (x : ℚ) (e f : ℤ) (hlo : (2 : ℚ) ^ (e + 52) ≤ x)
    (hhi : x < (2 : ℚ) ^ (e + 52 + 1)) (hm : x / 2 ^ e = f + 1 / 2) (hodd : f % 2 = 1) :
    roundBinary64 x = (f + 1 : ℤ) * 2 ^ e := by
  have hx : 0 < x := lt_of_lt_of_le (by positivity) hlo
  have hl : Int.log 2 |x| - 52 = e := by
    rw [abs_of_pos hx, log_two_eq x (e + 52) hlo hhi]
    ring
  unfold roundBinary64
  rw [if_neg (ne_of_gt hx), hl, roundHalfEven_tie_odd _ f hm hodd]

theorem roundBinary64_zero : roundBinary64 0 = 0 := by
  simp [roundBinary64]

/-- The number 2 is a binary64 value. -/
theorem roundBinary64_two :
    roundBinary64 (2) = 2 := by
  rw [roundBinary64_of_pos (2) (-51) 4503599627370496 (by norm_num) (by norm_num)
    (by norm_num) (by norm_num)]
  norm_num

/-- The binary64 value of the literal `0.9`. -/
theorem roundBinary64_nine_tenths :
    roundBinary64 (9 / 10) = 8106479329266893 / 9007199254740992 := by
  rw [roundBinary64_of_pos (9 / 10) (-53) 8106479329266893 (by norm_num) (by norm_num)
    (by norm_num) (by norm_num)]
  norm_num

/-- The binary64 value of `0.9` is left unchanged by rounding. -/
theorem roundBinary64_d09 :
    roundBinary64 (8106479329266893 / 9007199254740992) = 8106479329266893 / 9007199254740992 := by
  rw [roundBinary64_of_pos
    (8106479329266893 / 9007199254740992)
    (-53) 8106479329266893 (by norm_num) (by norm_num)
    (by norm_num) (by norm_num)]
  norm_num

/-- The binary64 sum `0.9 + 2`, which prints as 2.9. -/
theorem roundBinary64_d09_add_two :
    roundBinary64 (26120877838748877 / 9007199254740992) = 6530219459687219 / 2251799813685248 := by
  rw [roundBinary64_of_pos
    (26120877838748877 / 9007199254740992)
    (-51) 6530219459687219 (by norm_num) (by norm_num)
    (by norm_num) (by norm_num)]
  norm_num

/-- The binary64 difference `2.9 - 2`, which prints as 0.8999999999999999. -/
theorem roundBinary64_d29_sub_two :
    roundBinary64 (2026619832316723 / 2251799813685248) = 2026619832316723 / 2251799813685248 := by
  rw [roundBinary64_of_pos
    (2026619832316723 / 2251799813685248)
    (-53) 8106479329266892 (by norm_num) (by norm_num)
    (by norm_num) (by norm_num)]
  norm_num

/-- The binary64 value of the literal `0.1`. -/
theorem roundBinary64_one_tenth :
    roundBinary64 (1 / 10) = 3602879701896397 / 36028797018963968 := by
  rw [roundBinary64_of_pos (1 / 10) (-56) 7205759403792794 (by norm_num) (by norm_num)
    (by norm_num) (by norm_num)]
  norm_num

/-- The binary64 value of `0.1` is left unchanged by rounding. -/
theorem roundBinary64_d01 :
    roundBinary64 (3602879701896397 / 36028797018963968)
      = 3602879701896397 / 36028797018963968 := by
  rw [roundBinary64_of_pos
    (3602879701896397 / 36028797018963968)
    (-56) 7205759403792794 (by norm_num) (by norm_num)
    (by norm_num) (by norm_num)]
  norm_num

/-- The binary64 value of the literal `0.2`. -/
theorem roundBinary64_one_fifth :
    roundBinary64 (1 / 5) = 3602879701896397 / 18014398509481984 := by
  rw [roundBinary64_of_pos (1 / 5) (-55) 7205759403792794 (by norm_num) (by norm_num)
    (by norm_num) (by norm_num)]
  norm_num

/-- The binary64 value of `0.2` is left unchanged by rounding. -/
theorem roundBinary64_d02 :
    roundBinary64 (3602879701896397 / 18014398509481984)
      = 3602879701896397 / 18014398509481984 := by
  rw [roundBinary64_of_pos
    (3602879701896397 / 18014398509481984)
    (-55) 7205759403792794 (by norm_num) (by norm_num)
    (by norm_num) (by norm_num)]
  norm_num

/-- The binary64 value of the literal `0.3`. -/
theorem roundBinary64_three_tenths :
    roundBinary64 (3 / 10) = 5404319552844595 / 18014398509481984 := by
  rw [roundBinary64_of_pos (3 / 10) (-54) 5404319552844595 (by norm_num) (by norm_num)
    (by norm_num) (by norm_num)]
  norm_num

/-- The binary64 value of `0.3` is left unchanged by rounding. -/
theorem roundBinary64_d03 :
    roundBinary64 (5404319552844595 / 18014398509481984)
      = 5404319552844595 / 18014398509481984 := by
  rw [roundBinary64_of_pos
    (5404319552844595 / 18014398509481984)
    (-54) 5404319552844595 (by norm_num) (by norm_num)
    (by norm_num) (by norm_num)]
  norm_num

/-- The binary64 sum `0.2 + 0.1`, a tie that rounds to the even neighbour and prints as
0.30000000000000004. -/
theorem roundBinary64_d02_add_d01 :
    roundBinary64 (10808639105689191 / 36028797018963968)
      = 1351079888211149 / 4503599627370496 := by
  rw [roundBinary64_of_pos_tie_odd
    (10808639105689191 / 36028797018963968)
    (-54) 5404319552844595 (by norm_num) (by norm_num)
    (by norm_num) (by decide)]
  norm_num

/-- The binary64 sum `0.3 + 0.30000000000000004`, a tie that rounds to the even neighbour and
prints as 0.6000000000000001. -/
theorem roundBinary64_d03_add_d03r :
    roundBinary64 (10808639105689191 / 18014398509481984)
      = 1351079888211149 / 2251799813685248 := by
  rw [roundBinary64_of_pos_tie_odd
    (10808639105689191 / 18014398509481984)
    (-53) 5404319552844595 (by norm_num) (by norm_num)
    (by norm_num) (by decide)]
  norm_num

/-- The number 1/2 is a binary64 value; it is also the exact sum of the binary64 values of
`0.3` and `0.2`. -/
theorem roundBinary64_half :
    roundBinary64 (1 / 2) = 1 / 2 := by
  rw [roundBinary64_of_pos (1 / 2) (-53) 4503599627370496 (by norm_num) (by norm_num)
    (by norm_num) (by norm_num)]
  norm_num

/-- The binary64 sum `0.5 + 0.1`, which prints as 0.6. -/
theorem roundBinary64_half_add_d01 :
    roundBinary64 (21617278211378381 / 36028797018963968)
      = 5404319552844595 / 9007199254740992 := by
  rw [roundBinary64_of_pos
    (21617278211378381 / 36028797018963968)
    (-53) 5404319552844595 (by norm_num) (by norm_num)
    (by norm_num) (by norm_num)]
  norm_num

/-- The number 1 is a binary64 value. -/
theorem roundBinary64_one :
    roundBinary64 (1) = 1 := by
  rw [roundBinary64_of_pos (1) (-52) 4503599627370496 (by norm_num) (by norm_num)
    (by norm_num) (by norm_num)]
  norm_num

/-- The binary64 product of 1.4142135623730951, the binary64 square root of 2, with itself,
which prints as 2.0000000000000004. -/
theorem roundBinary64_sqrt_two_sq :
    roundBinary64 (40564819207303346393761349247529 / 20282409603651670423947251286016)
      = 4503599627370497 / 2251799813685248 := by
  rw [roundBinary64_of_pos
    (40564819207303346393761349247529 / 20282409603651670423947251286016)
    (-51) 4503599627370497 (by norm_num) (by norm_num)
    (by norm_num) (by norm_num)]
  norm_num

/-- The number 5/2 is a binary64 value. -/
theorem roundBinary64_five_halves :
    roundBinary64 (5 / 2) = 5 / 2 := by
  rw [roundBinary64_of_pos (5 / 2) (-51) 5629499534213120 (by norm_num) (by norm_num)
    (by norm_num) (by norm_num)]
  norm_num

theorem Double.add_mk (a b : ℚ) :
    Double.mk a + Double.mk b = Double.mk (roundBinary64 (a + b)) := rfl

theorem Double.sub_mk (a b : ℚ) :
    Double.mk a - Double.mk b = Double.mk (roundBinary64 (a - b)) := rfl

theorem Double.mul_mk (a b : ℚ) :
    Double.mk a * Double.mk b = Double.mk (roundBinary64 (a * b)) := rfl

theorem Double.neg_eq_mk (a : ℚ) : -Double.mk a = Double.mk (-a) := rfl

theorem Double.zero_def : (0 : Double) = Double.mk 0 := rfl

theorem Double.one_def : (1 : Double) = Double.mk 1 := rfl

theorem Double.ofScientific_def (m : ℕ) (s : Bool) (e : ℕ) :
    (OfScientific.ofScientific m s e : Double)
      = Double.mk (roundBinary64 (if s then (m : ℚ) / 10 ^ e else (m : ℚ) * 10 ^ e)) := rfl

theorem Double.lt_mk (a b : ℚ) : Double.mk a < Double.mk b ↔ a < b := Iff.rfl

/-- No rational number, and so no binary64 value, has square 2. -/
theorem rat_mul_self_ne_two (q : ℚ) : q * q ≠ 2 := by
  intro h
  have h2 : Real.sqrt 2 = ((|q| : ℚ) : ℝ) := by
    rw [Real.sqrt_eq_iff_mul_self_eq (by norm_num) (by positivity)]
    norm_cast
    rw [abs_mul_abs_self]
    exact h.symm
  exact irrational_sqrt_two ⟨|q|, h2.symm⟩

end Binary64

/-! ## The claims -/

section Claims

variable {α Shape : Type} [LinearOrderedField α]

/-- C1: `shapeIntersect2` returns true exactly when the GJK run on the Minkowski difference built
from the inputs reports `Inside` and the EPA run on that result reports a status other than
`Failed`.  For every other GJK status it returns false and leaves the outputs untouched whatever
`EPA::evaluate` is (EPA is not run).  With the capacity statuses `OutOfVertices`, `OutOfFaces`
it still reports a hit, the outputs being computed from EPA's record (`hitOutputs`). -/
theorem shapeIntersect2_hit_iff (D : Solvers α Shape) (s1 : Shape) (tf1 : SimpleTransform α)
    (s2 : Shape) (tf2 : SimpleTransform α) (out : Outputs α) :
    ((shapeIntersect2 D s1 tf1 s2 tf2 out).1 = true ↔
      (gjkRun D (minkowski s1 tf1 s2 tf2)).status = GJKStatus.Inside ∧
      (epaRun D (minkowski s1 tf1 s2 tf2)).status ≠ EPAStatus.Failed) ∧
    ((gjkRun D (minkowski s1 tf1 s2 tf2)).status ≠ GJKStatus.Inside →
      ∀ epa : GJK α Shape → Vec3f α → EPA α,
        shapeIntersect2 { D with epa_evaluate := epa } s1 tf1 s2 tf2 out = (false, out)) ∧
    ((gjkRun D (minkowski s1 tf1 s2 tf2)).status = GJKStatus.Inside →
      ((epaRun D (minkowski s1 tf1 s2 tf2)).status = EPAStatus.OutOfVertices ∨
        (epaRun D (minkowski s1 tf1 s2 tf2)).status = EPAStatus.OutOfFaces) →
      shapeIntersect2 D s1 tf1 s2 tf2 out =
        (true,
          { penetration_depth :=
              out.penetration_depth.map (fun _ => -(epaRun D (minkowski s1 tf1 s2 tf2)).depth)
            normal := out.normal.map (fun _ => -(epaRun D (minkowski s1 tf1 s2 tf2)).normal)
            contact_points := out.contact_points.map (fun _ => tf1.transform
              (witness0 D (minkowski s1 tf1 s2 tf2) (epaRun D (minkowski s1 tf1 s2 tf2)).result
                - (epaRun D (minkowski s1 tf1 s2 tf2)).normal
                  * ((epaRun D (minkowski s1 tf1 s2 tf2)).depth / 2))) })) := by
  refine ⟨?_, ?_, ?_⟩
  · rw [shapeIntersect2_eq]
    exact intersectResult_fst D tf1 _ out
  · intro h epa
    rw [shapeIntersect2_eq]
    apply intersectResult_of_miss
    rintro ⟨h1, -⟩
    exact h h1
  · intro h h2
    rw [shapeIntersect2_eq, intersectResult_of_inside D tf1 _ out h]
    · rfl
    · rcases h2 with h2 | h2 <;> rw [h2] <;> decide

/-- C1, on two unit cubes overlapping by 1/10 along x, with GJK reporting `Inside` and EPA
running out of vertices: the query is a hit with depth, normal and contact point taken from
EPA's record. -/
theorem shapeIntersect2_hit_iff_witness :
    (gjkRun (fixedSolvers GJKStatus.Inside faceX (epaX EPAStatus.OutOfVertices (1 / 10 : ℚ)))
      (minkowski unitBox (translation 0) unitBox (translation ⟨9 / 10, 0, 0⟩))).status
        = GJKStatus.Inside ∧
    (epaRun (fixedSolvers GJKStatus.Inside faceX (epaX EPAStatus.OutOfVertices (1 / 10 : ℚ)))
      (minkowski unitBox (translation 0) unitBox (translation ⟨9 / 10, 0, 0⟩))).status
        = EPAStatus.OutOfVertices ∧
    shapeIntersect2 (fixedSolvers GJKStatus.Inside faceX (epaX EPAStatus.OutOfVertices (1 / 10 : ℚ)))
      unitBox (translation 0) unitBox (translation ⟨9 / 10, 0, 0⟩) allOutputs
        = (true, ⟨some ⟨9 / 20, 0, 0⟩, some (-(1 / 10)), some ⟨-1, 0, 0⟩⟩) := by
  refine ⟨rfl, rfl, ?_⟩
  rw [(shapeIntersect2_hit_iff (fixedSolvers GJKStatus.Inside faceX
    (epaX EPAStatus.OutOfVertices (1 / 10 : ℚ))) unitBox (translation 0) unitBox
    (translation ⟨9 / 10, 0, 0⟩) allOutputs).2.2 rfl (Or.inl rfl)]
  simp [fixedSolvers, gjkRun, epaRun, epaX, allOutputs, witness0, faceX,
    Finset.sum_range_succ, MinkowskiDiff.support, MinkowskiDiff.support0, minkowski, boxSupport,
    unitBox, SimpleTransform.transform, translation, Matrix3f.mulVec, Matrix3f.identity,
    Vec3f.ext_iff]
  norm_num

/-- C2 fails as stated: on two unit cubes overlapping by 1/10 along x, with GJK reporting
`Inside` and EPA ending with the failure status `OutOfVertices`, `shapeIntersect2` returns
true. -/
theorem shapeIntersect2_hit_on_epa_exhaustion :
    (gjkRun (fixedSolvers GJKStatus.Inside faceX (epaX EPAStatus.OutOfVertices (1 / 10 : ℚ)))
      (minkowski unitBox (translation 0) unitBox (translation ⟨9 / 10, 0, 0⟩))).status
        = GJKStatus.Inside ∧
    (epaRun (fixedSolvers GJKStatus.Inside faceX (epaX EPAStatus.OutOfVertices (1 / 10 : ℚ)))
      (minkowski unitBox (translation 0) unitBox (translation ⟨9 / 10, 0, 0⟩))).status
        = EPAStatus.OutOfVertices ∧
    (shapeIntersect2 (fixedSolvers GJKStatus.Inside faceX (epaX EPAStatus.OutOfVertices (1 / 10 : ℚ)))
      unitBox (translation 0) unitBox (translation ⟨9 / 10, 0, 0⟩) allOutputs).1 ≠ false := by
  refine ⟨rfl, rfl, ?_⟩
  simp [shapeIntersect2, fixedSolvers, epaX]

/-- C2, amended: when GJK reports `Inside` and EPA ends with `Failed`, `shapeIntersect2` and
both `shapeTriangleIntersect2` overloads return false and leave the outputs untouched; when EPA
ends with `Degenerate`, `OutOfVertices` or `OutOfFaces` instead, they return true. -/
theorem intersect_false_iff_epa_failed (D : Solvers α Shape)
    (Triangle2 : Vec3f α → Vec3f α → Vec3f α → Shape) (s : Shape) (tf : SimpleTransform α)
    (s2 : Shape) (tf2 : SimpleTransform α) (P1 P2 P3 : Vec3f α) (R : Matrix3f α) (T : Vec3f α)
    (out : Outputs α) :
    ((gjkRun D (minkowski s tf s2 tf2)).status = GJKStatus.Inside →
      ((epaRun D (minkowski s tf s2 tf2)).status = EPAStatus.Failed →
        shapeIntersect2 D s tf s2 tf2 out = (false, out)) ∧
      ((epaRun D (minkowski s tf s2 tf2)).status = EPAStatus.Degenerate ∨
        (epaRun D (minkowski s tf s2 tf2)).status = EPAStatus.OutOfVertices ∨
        (epaRun D (minkowski s tf s2 tf2)).status = EPAStatus.OutOfFaces →
        (shapeIntersect2 D s tf s2 tf2 out).1 = true)) ∧
    ((gjkRun D ⟨s, Triangle2 P1 P2 P3, tf.R, tf.inverse⟩).status = GJKStatus.Inside →
      ((epaRun D ⟨s, Triangle2 P1 P2 P3, tf.R, tf.inverse⟩).status = EPAStatus.Failed →
        shapeTriangleIntersect2 D Triangle2 s tf P1 P2 P3 out = (false, out)) ∧
      ((epaRun D ⟨s, Triangle2 P1 P2 P3, tf.R, tf.inverse⟩).status = EPAStatus.Degenerate ∨
        (epaRun D ⟨s, Triangle2 P1 P2 P3, tf.R, tf.inverse⟩).status = EPAStatus.OutOfVertices ∨
        (epaRun D ⟨s, Triangle2 P1 P2 P3, tf.R, tf.inverse⟩).status = EPAStatus.OutOfFaces →
        (shapeTriangleIntersect2 D Triangle2 s tf P1 P2 P3 out).1 = true)) ∧
    ((gjkRun D (minkowski s tf (Triangle2 P1 P2 P3) ⟨R, T⟩)).status = GJKStatus.Inside →
      ((epaRun D (minkowski s tf (Triangle2 P1 P2 P3) ⟨R, T⟩)).status = EPAStatus.Failed →
        shapeTriangleIntersect2RT D Triangle2 s tf P1 P2 P3 R T out = (false, out)) ∧
      ((epaRun D (minkowski s tf (Triangle2 P1 P2 P3) ⟨R, T⟩)).status = EPAStatus.Degenerate ∨
        (epaRun D (minkowski s tf (Triangle2 P1 P2 P3) ⟨R, T⟩)).status
          = EPAStatus.OutOfVertices ∨
        (epaRun D (minkowski s tf (Triangle2 P1 P2 P3) ⟨R, T⟩)).status = EPAStatus.OutOfFaces →
        (shapeTriangleIntersect2RT D Triangle2 s tf P1 P2 P3 R T out).1 = true)) := by
  have key : ∀ shape : MinkowskiDiff α Shape, (gjkRun D shape).status = GJKStatus.Inside →
      ((epaRun D shape).status = EPAStatus.Failed →
        intersectResult D tf shape out = (false, out)) ∧
      ((epaRun D shape).status = EPAStatus.Degenerate ∨
        (epaRun D shape).status = EPAStatus.OutOfVertices ∨
        (epaRun D shape).status = EPAStatus.OutOfFaces →
        (intersectResult D tf shape out).1 = true) := by
    intro shape h
    constructor
    · intro h2
      apply intersectResult_of_miss
      rintro ⟨-, h3⟩
      exact h3 h2
    · intro h2
      rw [intersectResult_fst]
      refine ⟨h, ?_⟩
      rcases h2 with h2 | h2 | h2 <;> rw [h2] <;> decide
  rw [shapeIntersect2_eq, shapeTriangleIntersect2_eq, shapeTriangleIntersect2RT_eq]
  exact ⟨key _, key _, key _⟩

/-- C2 amended, on two unit cubes overlapping by 1/10 along x with GJK reporting `Inside` and
EPA ending with `Failed`: no hit, outputs untouched. -/
theorem intersect_false_iff_epa_failed_witness :
    (gjkRun (fixedSolvers GJKStatus.Inside faceX (epaX EPAStatus.Failed (1 / 10 : ℚ)))
      (minkowski unitBox (translation 0) unitBox (translation ⟨9 / 10, 0, 0⟩))).status
        = GJKStatus.Inside ∧
    (epaRun (fixedSolvers GJKStatus.Inside faceX (epaX EPAStatus.Failed (1 / 10 : ℚ)))
      (minkowski unitBox (translation 0) unitBox (translation ⟨9 / 10, 0, 0⟩))).status
        = EPAStatus.Failed ∧
    shapeIntersect2 (fixedSolvers GJKStatus.Inside faceX (epaX EPAStatus.Failed (1 / 10 : ℚ)))
      unitBox (translation 0) unitBox (translation ⟨9 / 10, 0, 0⟩) allOutputs
        = (false, allOutputs) :=
  ⟨rfl, rfl, ((intersect_false_iff_epa_failed
    (fixedSolvers GJKStatus.Inside faceX (epaX EPAStatus.Failed (1 / 10 : ℚ)))
    (fun _ _ _ => unitBox) unitBox (translation 0) unitBox (translation ⟨9 / 10, 0, 0⟩)
    0 0 0 Matrix3f.identity 0 allOutputs).1 rfl).1 rfl⟩

/-- C3 fails as stated: on two unit cubes overlapping by 1/2 along x, with GJK reporting
`Inside` and EPA reporting `Valid` with depth 1/2 (which is `≥ 0`), `shapeIntersect2` reports a
hit and writes the penetration depth `-1/2`, which is negative and is not 1/2. -/
theorem shapeIntersect2_depth_negative :
    (shapeIntersect2 (fixedSolvers GJKStatus.Inside faceX (epaX EPAStatus.Valid (1 / 2 : ℚ)))
      unitBox (translation 0) unitBox (translation ⟨1 / 2, 0, 0⟩) allOutputs).1 = true ∧
    0 ≤ (epaRun (fixedSolvers GJKStatus.Inside faceX (epaX EPAStatus.Valid (1 / 2 : ℚ)))
      (minkowski unitBox (translation 0) unitBox (translation ⟨1 / 2, 0, 0⟩))).depth ∧
    (epaRun (fixedSolvers GJKStatus.Inside faceX (epaX EPAStatus.Valid (1 / 2 : ℚ)))
      (minkowski unitBox (translation 0) unitBox (translation ⟨1 / 2, 0, 0⟩))).depth = 1 / 2 ∧
    (shapeIntersect2 (fixedSolvers GJKStatus.Inside faceX (epaX EPAStatus.Valid (1 / 2 : ℚ)))
      unitBox (translation 0) unitBox (translation ⟨1 / 2, 0, 0⟩) allOutputs).2.penetration_depth
        = some (-(1 / 2)) ∧
    ¬ (0 : ℚ) ≤ -(1 / 2) ∧ (-(1 / 2) : ℚ) ≠ 1 / 2 := by
  refine ⟨?_, ?_, ?_, ?_, ?_, ?_⟩
  · simp [shapeIntersect2, fixedSolvers, epaX]
  · simp [epaRun, fixedSolvers, epaX]
  · simp [epaRun, fixedSolvers, epaX]
  · simp [shapeIntersect2, fixedSolvers, epaX, allOutputs]
  · norm_num
  · norm_num

/-- C3, amended: whenever `shapeIntersect2` or either `shapeTriangleIntersect2` overload reports
a hit, the penetration depth it writes (when the pointer is given) is the negated EPA depth, so
under the EPA contract `0 ≤ depth` every value written is `≤ 0`. -/
theorem intersect_depth_nonpos (D : Solvers α Shape)
    (Triangle2 : Vec3f α → Vec3f α → Vec3f α → Shape) (s : Shape) (tf : SimpleTransform α)
    (s2 : Shape) (tf2 : SimpleTransform α) (P1 P2 P3 : Vec3f α) (R : Matrix3f α) (T : Vec3f α)
    (out : Outputs α) :
    ((shapeIntersect2 D s tf s2 tf2 out).1 = true →
      (shapeIntersect2 D s tf s2 tf2 out).2.penetration_depth =
        out.penetration_depth.map (fun _ => -(epaRun D (minkowski s tf s2 tf2)).depth) ∧
      (0 ≤ (epaRun D (minkowski s tf s2 tf2)).depth →
        ∀ d, (shapeIntersect2 D s tf s2 tf2 out).2.penetration_depth = some d → d ≤ 0)) ∧
    ((shapeTriangleIntersect2 D Triangle2 s tf P1 P2 P3 out).1 = true →
      (shapeTriangleIntersect2 D Triangle2 s tf P1 P2 P3 out).2.penetration_depth =
        out.penetration_depth.map
          (fun _ => -(epaRun D ⟨s, Triangle2 P1 P2 P3, tf.R, tf.inverse⟩).depth) ∧
      (0 ≤ (epaRun D ⟨s, Triangle2 P1 P2 P3, tf.R, tf.inverse⟩).depth →
        ∀ d, (shapeTriangleIntersect2 D Triangle2 s tf P1 P2 P3 out).2.penetration_depth = some d →
          d ≤ 0)) ∧
    ((shapeTriangleIntersect2RT D Triangle2 s tf P1 P2 P3 R T out).1 = true →
      (shapeTriangleIntersect2RT D Triangle2 s tf P1 P2 P3 R T out).2.penetration_depth =
        out.penetration_depth.map
          (fun _ => -(epaRun D (minkowski s tf (Triangle2 P1 P2 P3) ⟨R, T⟩)).depth) ∧
      (0 ≤ (epaRun D (minkowski s tf (Triangle2 P1 P2 P3) ⟨R, T⟩)).depth →
        ∀ d, (shapeTriangleIntersect2RT D Triangle2 s tf P1 P2 P3 R T out).2.penetration_depth
          = some d → d ≤ 0)) := by
  have key : ∀ shape : MinkowskiDiff α Shape, (intersectResult D tf shape out).1 = true →
      (intersectResult D tf shape out).2.penetration_depth =
        out.penetration_depth.map (fun _ => -(epaRun D shape).depth) ∧
      (0 ≤ (epaRun D shape).depth →
        ∀ d, (intersectResult D tf shape out).2.penetration_depth = some d → d ≤ 0) := by
    intro shape h
    rw [intersectResult_of_hit D tf shape out h]
    refine ⟨rfl, ?_⟩
    intro h0 d hd
    have hd2 : out.penetration_depth.map (fun _ => -(epaRun D shape).depth) = some d := hd
    obtain ⟨_, -, rfl⟩ := Option.map_eq_some'.mp hd2
    exact neg_nonpos.mpr h0
  rw [shapeIntersect2_eq, shapeTriangleIntersect2_eq, shapeTriangleIntersect2RT_eq]
  exact ⟨key _, key _, key _⟩

/-- C3 amended, on two unit cubes overlapping by 1/2 along x with EPA depth 1/2: the depth
written is `-1/2`. -/
theorem intersect_depth_nonpos_witness :
    (shapeIntersect2 (fixedSolvers GJKStatus.Inside faceX (epaX EPAStatus.Valid (1 / 2 : ℚ)))
      unitBox (translation 0) unitBox (translation ⟨1 / 2, 0, 0⟩) allOutputs).1 = true ∧
    (shapeIntersect2 (fixedSolvers GJKStatus.Inside faceX (epaX EPAStatus.Valid (1 / 2 : ℚ)))
      unitBox (translation 0) unitBox (translation ⟨1 / 2, 0, 0⟩) allOutputs).2.penetration_depth
        = some (-(1 / 2)) := by
  have hit : (shapeIntersect2 (fixedSolvers GJKStatus.Inside faceX
      (epaX EPAStatus.Valid (1 / 2 : ℚ))) unitBox (translation 0) unitBox
      (translation ⟨1 / 2, 0, 0⟩) allOutputs).1 = true := by
    simp [shapeIntersect2, fixedSolvers, epaX]
  refine ⟨hit, ?_⟩
  rw [((intersect_depth_nonpos (fixedSolvers GJKStatus.Inside faceX
    (epaX EPAStatus.Valid (1 / 2 : ℚ))) (fun _ _ _ => unitBox) unitBox (translation 0) unitBox
    (translation ⟨1 / 2, 0, 0⟩) 0 0 0 Matrix3f.identity 0 allOutputs).1 hit).1]
  simp [epaRun, fixedSolvers, epaX, allOutputs]

/-- C5 fails as stated in the binary64 arithmetic of the code.  Take for `T` the translation
by `(2, 0, 0)` (identity rotation, which is orthogonal), `tf1` the identity and `tf2` the
translation by `(0.9, 0, 0)`.  The x offset in `toshape0` is 0.9 for the original query and
`(0.9 + 2) - (0 + 2)`, which is 0.8999999999999999, for the moved one: the setup changes.
With a solver for two cubes of side 0.9 that reports `Inside` when that offset is below 0.9 and
`Valid` otherwise, the original query is a miss and the moved query a hit. -/
theorem rigid_motion_changes_setup_binary64 :
    (Matrix3f.identity : Matrix3f Double).IsOrthogonal ∧
    ((translation (0 : Vec3f Double)).inverseTimes (translation ⟨0.9, 0, 0⟩)).T.x
      = ⟨8106479329266893 / 9007199254740992⟩ ∧
    (((⟨Matrix3f.identity, ⟨⟨2⟩, 0, 0⟩⟩ : SimpleTransform Double).compose
        (translation 0)).inverseTimes
      ((⟨Matrix3f.identity, ⟨⟨2⟩, 0, 0⟩⟩ : SimpleTransform Double).compose
        (translation ⟨0.9, 0, 0⟩))).T.x = ⟨2026619832316723 / 2251799813685248⟩ ∧
    ((⟨Matrix3f.identity, ⟨⟨2⟩, 0, 0⟩⟩ : SimpleTransform Double).compose
        (translation 0)).inverseTimes
      ((⟨Matrix3f.identity, ⟨⟨2⟩, 0, 0⟩⟩ : SimpleTransform Double).compose
        (translation ⟨0.9, 0, 0⟩))
      ≠ (translation (0 : Vec3f Double)).inverseTimes (translation ⟨0.9, 0, 0⟩) ∧
    (shapeIntersect2 (offsetSolvers (0.9 : Double) vertexDiag epaTouchingX)
      ⟨0.45, 0.45, 0.45⟩ (translation 0) ⟨0.45, 0.45, 0.45⟩ (translation ⟨0.9, 0, 0⟩)
      allOutputs).1 = false ∧
    (shapeIntersect2 (offsetSolvers (0.9 : Double) vertexDiag epaTouchingX)
      ⟨0.45, 0.45, 0.45⟩
      ((⟨Matrix3f.identity, ⟨⟨2⟩, 0, 0⟩⟩ : SimpleTransform Double).compose (translation 0))
      ⟨0.45, 0.45, 0.45⟩
      ((⟨Matrix3f.identity, ⟨⟨2⟩, 0, 0⟩⟩ : SimpleTransform Double).compose
        (translation ⟨0.9, 0, 0⟩))
      allOutputs).1 = true := by
  have horth : (Matrix3f.identity : Matrix3f Double).IsOrthogonal := by
    simp only [Matrix3f.IsOrthogonal, Matrix3f.transposeTimes, Matrix3f.identity,
      Double.zero_def, Double.one_def, Double.add_mk, Double.mul_mk]
    norm_num [roundBinary64_zero, roundBinary64_one]
  have horig : ((translation (0 : Vec3f Double)).inverseTimes (translation ⟨0.9, 0, 0⟩)).T.x
      = ⟨8106479329266893 / 9007199254740992⟩ := by
    simp only [translation, SimpleTransform.inverseTimes, SimpleTransform.compose,
      Matrix3f.mulVec, Matrix3f.mul, Matrix3f.transpose, Matrix3f.identity, Vec3f.sub_x,
      Vec3f.sub_y, Vec3f.sub_z, Vec3f.add_x, Vec3f.add_y, Vec3f.add_z, Vec3f.zero_x,
      Vec3f.zero_y, Vec3f.zero_z, Double.zero_def, Double.one_def, Double.ofScientific_def,
      Double.add_mk, Double.sub_mk, Double.mul_mk]
    norm_num [roundBinary64_zero, roundBinary64_one, roundBinary64_two,
      roundBinary64_nine_tenths, roundBinary64_d09, roundBinary64_d09_add_two,
      roundBinary64_d29_sub_two]
  have hmoved : (((⟨Matrix3f.identity, ⟨⟨2⟩, 0, 0⟩⟩ : SimpleTransform Double).compose
        (translation 0)).inverseTimes
      ((⟨Matrix3f.identity, ⟨⟨2⟩, 0, 0⟩⟩ : SimpleTransform Double).compose
        (translation ⟨0.9, 0, 0⟩))).T.x = ⟨2026619832316723 / 2251799813685248⟩ := by
    simp only [translation, SimpleTransform.inverseTimes, SimpleTransform.compose,
      Matrix3f.mulVec, Matrix3f.mul, Matrix3f.transpose, Matrix3f.identity, Vec3f.sub_x,
      Vec3f.sub_y, Vec3f.sub_z, Vec3f.add_x, Vec3f.add_y, Vec3f.add_z, Vec3f.zero_x,
      Vec3f.zero_y, Vec3f.zero_z, Double.zero_def, Double.one_def, Double.ofScientific_def,
      Double.add_mk, Double.sub_mk, Double.mul_mk]
    norm_num [roundBinary64_zero, roundBinary64_one, roundBinary64_two,
      roundBinary64_nine_tenths, roundBinary64_d09, roundBinary64_d09_add_two,
      roundBinary64_d29_sub_two]
  refine ⟨horth, horig, hmoved, ?_, ?_, ?_⟩
  · intro h
    rw [h, horig] at hmoved
    have hv := congrArg Double.val hmoved
    norm_num at hv
  · have hlt : ¬ ((translation (0 : Vec3f Double)).inverseTimes
        (translation ⟨0.9, 0, 0⟩)).T.x < (0.9 : Double) := by
      rw [horig, Double.ofScientific_def, Double.lt_mk]
      norm_num [roundBinary64_nine_tenths]
    simp only [shapeIntersect2, offsetSolvers, if_neg hlt]
  · have hlt : (((⟨Matrix3f.identity, ⟨⟨2⟩, 0, 0⟩⟩ : SimpleTransform Double).compose
          (translation 0)).inverseTimes
        ((⟨Matrix3f.identity, ⟨⟨2⟩, 0, 0⟩⟩ : SimpleTransform Double).compose
          (translation ⟨0.9, 0, 0⟩))).T.x < (0.9 : Double) := by
      rw [hmoved, Double.ofScientific_def, Double.lt_mk]
      norm_num [roundBinary64_nine_tenths]
    simp only [shapeIntersect2, offsetSolvers, if_pos hlt, epaTouchingX]
    rw [if_pos (by decide)]

/-- C5, amended.  In exact arithmetic: for a rigid transform `t` (orthogonal rotation plus
translation), replacing `tf1` by `t ∘ tf1` and `tf2` by `t ∘ tf2` leaves `toshape1 = R2ᵀ·R1`
and `toshape0 = tf1⁻¹ ∘ tf2` unchanged, and with them the hit flag and penetration depth of
`shapeIntersect2` and the success flag and distance of `shapeDistance2`.  In any arithmetic, the
rounded binary64 arithmetic of the code included: whenever the setup of the moved query equals
that of the original, these results are identical. -/
theorem rigid_motion_invariance {β ShapeE : Type} [Zero β] [One β] [Add β] [Sub β] [Neg β]
    [Mul β] [OfScientific β] [LT β] [DecidableRel (fun a b : β => a < b)]
    (D : Solvers α Shape) (sqrt : α → α) (t : SimpleTransform α)
    (s1 : Shape) (tf1 : SimpleTransform α) (s2 : Shape) (tf2 : SimpleTransform α)
    (out : Outputs α) (E : Solvers β ShapeE) (sqrtE : β → β) (e1 e2 : ShapeE)
    (u uf1 uf2 : SimpleTransform β) (outE : Outputs β) :
    (t.R.IsOrthogonal →
      (t.compose tf2).getRotation.transposeTimes (t.compose tf1).getRotation
        = tf2.getRotation.transposeTimes tf1.getRotation ∧
      (t.compose tf1).inverseTimes (t.compose tf2) = tf1.inverseTimes tf2 ∧
      (shapeIntersect2 D s1 (t.compose tf1) s2 (t.compose tf2) out).1
        = (shapeIntersect2 D s1 tf1 s2 tf2 out).1 ∧
      (shapeIntersect2 D s1 (t.compose tf1) s2 (t.compose tf2) out).2.penetration_depth
        = (shapeIntersect2 D s1 tf1 s2 tf2 out).2.penetration_depth ∧
      shapeDistance2 D sqrt s1 (t.compose tf1) s2 (t.compose tf2)
        = shapeDistance2 D sqrt s1 tf1 s2 tf2) ∧
    ((u.compose uf2).getRotation.transposeTimes (u.compose uf1).getRotation
        = uf2.getRotation.transposeTimes uf1.getRotation →
      (u.compose uf1).inverseTimes (u.compose uf2) = uf1.inverseTimes uf2 →
      (shapeIntersect2 E e1 (u.compose uf1) e2 (u.compose uf2) outE).1
        = (shapeIntersect2 E e1 uf1 e2 uf2 outE).1 ∧
      (shapeIntersect2 E e1 (u.compose uf1) e2 (u.compose uf2) outE).2.penetration_depth
        = (shapeIntersect2 E e1 uf1 e2 uf2 outE).2.penetration_depth ∧
      shapeDistance2 E sqrtE e1 (u.compose uf1) e2 (u.compose uf2)
        = shapeDistance2 E sqrtE e1 uf1 e2 uf2) := by
  constructor
  · intro h
    have h1 := compose_toshape1 t tf1 tf2 h
    have h0 := compose_toshape0 t tf1 tf2 h
    exact ⟨h1, h0, results_of_same_setup D sqrt s1 tf1 (t.compose tf1) s2 tf2 (t.compose tf2)
      out h1 h0⟩
  · intro h1 h0
    exact results_of_same_setup E sqrtE e1 uf1 (u.compose uf1) e2 uf2 (u.compose uf2) outE h1 h0

/-- C5 amended.  In exact arithmetic: the quarter turn about z followed by the translation
`(1, 2, 3)`, applied to two unit cubes overlapping by 1/10 along x.  In binary64 arithmetic:
the translation by `(2, 0, 0)` applied to two cubes of side 0.9 at the origin and at
`(0.5, 0, 0)`, where `(0.5 + 2) - (0 + 2)` is exactly 0.5 and the setups coincide. -/
theorem rigid_motion_invariance_witness :
    (quarterTurnZ : Matrix3f ℝ).IsOrthogonal ∧
    (shapeIntersect2 (fixedSolvers GJKStatus.Inside faceX (epaX EPAStatus.Valid (1 / 10 : ℝ)))
      unitBox ((⟨quarterTurnZ, ⟨1, 2, 3⟩⟩ : SimpleTransform ℝ).compose (translation 0))
      unitBox ((⟨quarterTurnZ, ⟨1, 2, 3⟩⟩ : SimpleTransform ℝ).compose
        (translation ⟨9 / 10, 0, 0⟩)) allOutputs).1
      = (shapeIntersect2 (fixedSolvers GJKStatus.Inside faceX (epaX EPAStatus.Valid (1 / 10 : ℝ)))
          unitBox (translation 0) unitBox (translation ⟨9 / 10, 0, 0⟩) allOutputs).1 ∧
    shapeDistance2 (fixedSolvers GJKStatus.Inside faceX (epaX EPAStatus.Valid (1 / 10 : ℝ)))
      Real.sqrt unitBox ((⟨quarterTurnZ, ⟨1, 2, 3⟩⟩ : SimpleTransform ℝ).compose (translation 0))
      unitBox ((⟨quarterTurnZ, ⟨1, 2, 3⟩⟩ : SimpleTransform ℝ).compose
        (translation ⟨9 / 10, 0, 0⟩))
      = shapeDistance2 (fixedSolvers GJKStatus.Inside faceX (epaX EPAStatus.Valid (1 / 10 : ℝ)))
          Real.sqrt unitBox (translation 0) unitBox (translation ⟨9 / 10, 0, 0⟩) ∧
    ((⟨Matrix3f.identity, ⟨⟨2⟩, 0, 0⟩⟩ : SimpleTransform Double).compose
        (translation 0)).inverseTimes
      ((⟨Matrix3f.identity, ⟨⟨2⟩, 0, 0⟩⟩ : SimpleTransform Double).compose
        (translation ⟨0.5, 0, 0⟩))
      = (translation (0 : Vec3f Double)).inverseTimes (translation ⟨0.5, 0, 0⟩) ∧
    (shapeIntersect2 (offsetSolvers (0.9 : Double) vertexDiag epaTouchingX)
      ⟨0.45, 0.45, 0.45⟩
      ((⟨Matrix3f.identity, ⟨⟨2⟩, 0, 0⟩⟩ : SimpleTransform Double).compose (translation 0))
      ⟨0.45, 0.45, 0.45⟩
      ((⟨Matrix3f.identity, ⟨⟨2⟩, 0, 0⟩⟩ : SimpleTransform Double).compose
        (translation ⟨0.5, 0, 0⟩))
      allOutputs).1
      = (shapeIntersect2 (offsetSolvers (0.9 : Double) vertexDiag epaTouchingX)
          ⟨0.45, 0.45, 0.45⟩ (translation 0) ⟨0.45, 0.45, 0.45⟩ (translation ⟨0.5, 0, 0⟩)
          allOutputs).1 := by
  have ho : (quarterTurnZ : Matrix3f ℝ).IsOrthogonal := by
    simp [Matrix3f.IsOrthogonal, quarterTurnZ, Matrix3f.transposeTimes, Matrix3f.identity]
  have h1 : ((⟨Matrix3f.identity, ⟨⟨2⟩, 0, 0⟩⟩ : SimpleTransform Double).compose
        (translation ⟨0.5, 0, 0⟩)).getRotation.transposeTimes
      ((⟨Matrix3f.identity, ⟨⟨2⟩, 0, 0⟩⟩ : SimpleTransform Double).compose
        (translation 0)).getRotation
      = (translation (⟨0.5, 0, 0⟩ : Vec3f Double)).getRotation.transposeTimes
          (translation (0 : Vec3f Double)).getRotation := by
    simp only [translation, SimpleTransform.getRotation, SimpleTransform.compose,
      Matrix3f.transposeTimes, Matrix3f.mul, Matrix3f.identity, Double.zero_def,
      Double.one_def, Double.add_mk, Double.mul_mk]
    norm_num [roundBinary64_zero, roundBinary64_one]
  have h0 : ((⟨Matrix3f.identity, ⟨⟨2⟩, 0, 0⟩⟩ : SimpleTransform Double).compose
        (translation 0)).inverseTimes
      ((⟨Matrix3f.identity, ⟨⟨2⟩, 0, 0⟩⟩ : SimpleTransform Double).compose
        (translation ⟨0.5, 0, 0⟩))
      = (translation (0 : Vec3f Double)).inverseTimes (translation ⟨0.5, 0, 0⟩) := by
    simp only [translation, SimpleTransform.inverseTimes, SimpleTransform.compose,
      Matrix3f.mulVec, Matrix3f.mul, Matrix3f.transpose, Matrix3f.transposeTimes,
      Matrix3f.identity, Vec3f.sub_x, Vec3f.sub_y, Vec3f.sub_z, Vec3f.add_x, Vec3f.add_y,
      Vec3f.add_z, Vec3f.zero_x, Vec3f.zero_y, Vec3f.zero_z, Double.zero_def, Double.one_def,
      Double.ofScientific_def, Double.add_mk, Double.sub_mk, Double.mul_mk]
    norm_num [roundBinary64_zero, roundBinary64_one, roundBinary64_two, roundBinary64_half,
      roundBinary64_five_halves]
  have h := rigid_motion_invariance
    (fixedSolvers GJKStatus.Inside faceX (epaX EPAStatus.Valid (1 / 10 : ℝ))) Real.sqrt
    ⟨quarterTurnZ, ⟨1, 2, 3⟩⟩ unitBox (translation 0) unitBox (translation ⟨9 / 10, 0, 0⟩)
    allOutputs
    (offsetSolvers (0.9 : Double) vertexDiag epaTouchingX) (fun x => x)
    ⟨0.45, 0.45, 0.45⟩ ⟨0.45, 0.45, 0.45⟩
    ⟨Matrix3f.identity, ⟨⟨2⟩, 0, 0⟩⟩ (translation 0) (translation ⟨0.5, 0, 0⟩) allOutputs
  exact ⟨ho, (h.1 ho).2.2.1, (h.1 ho).2.2.2.2, h0, (h.2 h1 h0).1⟩

/-- C6, evaluated on two unit cubes overlapping by 1/10 along x (GJK `Inside`, EPA `Valid` with
normal `(1, 0, 0)`): the query reports the normal `(-1, 0, 0)`; after turning both cubes by a
quarter turn about z it still reports `(-1, 0, 0)`, whereas the rotated normal is
`(0, -1, 0)`. -/
theorem shapeIntersect2_normal_not_rotated :
    (quarterTurnZ : Matrix3f ℚ).IsOrthogonal ∧
    (shapeIntersect2 (fixedSolvers GJKStatus.Inside faceX (epaX EPAStatus.Valid (1 / 10 : ℚ)))
      unitBox (translation 0) unitBox (translation ⟨9 / 10, 0, 0⟩) allOutputs)
      = (true, ⟨some ⟨9 / 20, 0, 0⟩, some (-(1 / 10)), some ⟨-1, 0, 0⟩⟩) ∧
    (shapeIntersect2 (fixedSolvers GJKStatus.Inside faceX (epaX EPAStatus.Valid (1 / 10 : ℚ)))
      unitBox ((⟨quarterTurnZ, 0⟩ : SimpleTransform ℚ).compose (translation 0))
      unitBox ((⟨quarterTurnZ, 0⟩ : SimpleTransform ℚ).compose (translation ⟨9 / 10, 0, 0⟩))
      allOutputs)
      = (true, ⟨some ⟨0, 9 / 20, 0⟩, some (-(1 / 10)), some ⟨-1, 0, 0⟩⟩) ∧
    (quarterTurnZ : Matrix3f ℚ).mulVec ⟨-1, 0, 0⟩ = ⟨0, -1, 0⟩ ∧
    (⟨-1, 0, 0⟩ : Vec3f ℚ) ≠ ⟨0, -1, 0⟩ := by
  refine ⟨?_, ?_, ?_, ?_, ?_⟩
  · simp [Matrix3f.IsOrthogonal, quarterTurnZ, Matrix3f.transposeTimes, Matrix3f.identity]
  · simp [shapeIntersect2, fixedSolvers, epaX, allOutputs, faceX, List.range_succ,
      MinkowskiDiff.support, MinkowskiDiff.support0, boxSupport, unitBox,
      SimpleTransform.transform, translation, Matrix3f.mulVec, Matrix3f.identity, Vec3f.ext_iff]
    norm_num
  · simp [shapeIntersect2, fixedSolvers, epaX, allOutputs, faceX, List.range_succ,
      MinkowskiDiff.support, MinkowskiDiff.support0, boxSupport, unitBox,
      SimpleTransform.transform, SimpleTransform.compose, translation, Matrix3f.mulVec,
      Matrix3f.mul, Matrix3f.identity, quarterTurnZ, Vec3f.ext_iff]
    norm_num
  · simp [quarterTurnZ, Matrix3f.mulVec]
  · simp [Vec3f.ext_iff]

/-- C8 fails as stated.  When GJK reports `Failed` (two unit cubes, the second at
`(9/10, 0, 0)`), `shapeDistance2` returns no value (false, sentinel `-1`) and yet
`shapeIntersect2` reports no hit.  When GJK reports `Valid` on two touching unit cubes (the
second at `(1, 0, 0)`, support vertex of direction `(1, 0, 0)`), `shapeDistance2` returns the
distance 0 and yet `shapeIntersect2` reports no hit. -/
theorem intersect_distance_not_consistent :
    ¬ ((shapeIntersect2 (fixedSolvers GJKStatus.Failed vertexX (epaX EPAStatus.Failed (0 : ℝ)))
          unitBox (translation 0) unitBox (translation ⟨9 / 10, 0, 0⟩) allOutputs).1 = true ↔
        ((shapeDistance2 (fixedSolvers GJKStatus.Failed vertexX (epaX EPAStatus.Failed (0 : ℝ)))
          Real.sqrt unitBox (translation 0) unitBox (translation ⟨9 / 10, 0, 0⟩)).1 = false ∨
         (shapeDistance2 (fixedSolvers GJKStatus.Failed vertexX (epaX EPAStatus.Failed (0 : ℝ)))
          Real.sqrt unitBox (translation 0) unitBox (translation ⟨9 / 10, 0, 0⟩)).2 = 0)) ∧
    ¬ ((shapeIntersect2 (fixedSolvers GJKStatus.Valid vertexX (epaX EPAStatus.Failed (0 : ℝ)))
          unitBox (translation 0) unitBox (translation ⟨1, 0, 0⟩) allOutputs).1 = true ↔
        ((shapeDistance2 (fixedSolvers GJKStatus.Valid vertexX (epaX EPAStatus.Failed (0 : ℝ)))
          Real.sqrt unitBox (translation 0) unitBox (translation ⟨1, 0, 0⟩)).1 = false ∨
         (shapeDistance2 (fixedSolvers GJKStatus.Valid vertexX (epaX EPAStatus.Failed (0 : ℝ)))
          Real.sqrt unitBox (translation 0) unitBox (translation ⟨1, 0, 0⟩)).2 = 0)) := by
  constructor
  · simp [shapeIntersect2, shapeDistance2, fixedSolvers]
  · simp [shapeIntersect2, shapeDistance2, fixedSolvers, vertexX, Vec3f.length, Vec3f.dot,
      List.range_succ, MinkowskiDiff.support, MinkowskiDiff.support0, MinkowskiDiff.support1,
      boxSupport,
      unitBox, SimpleTransform.transform, SimpleTransform.inverseTimes,
      SimpleTransform.getRotation, translation, Matrix3f.mulVec, Matrix3f.identity,
      Matrix3f.transposeTimes, Matrix3f.transpose]
    norm_num

/-- C8, amended: `shapeIntersect2` reports a hit if and only if `shapeDistance2` on the same
inputs returns no value (false, with the sentinel `-1`) and neither GJK nor EPA reports
`Failed`; in particular a hit implies that `shapeDistance2` returns no value, and whenever
`shapeDistance2` returns a distance (0 included) there is no hit. -/
theorem intersect_distance_consistency (D : Solvers α Shape) (sqrt : α → α) (s1 : Shape)
    (tf1 : SimpleTransform α) (s2 : Shape) (tf2 : SimpleTransform α) (out : Outputs α) :
    ((shapeIntersect2 D s1 tf1 s2 tf2 out).1 = true ↔
      shapeDistance2 D sqrt s1 tf1 s2 tf2 = (false, -1) ∧
      (gjkRun D (minkowski s1 tf1 s2 tf2)).status ≠ GJKStatus.Failed ∧
      (epaRun D (minkowski s1 tf1 s2 tf2)).status ≠ EPAStatus.Failed) ∧
    ((shapeDistance2 D sqrt s1 tf1 s2 tf2).1 = false ↔
      shapeDistance2 D sqrt s1 tf1 s2 tf2 = (false, -1)) ∧
    ((shapeDistance2 D sqrt s1 tf1 s2 tf2).1 = true →
      (shapeIntersect2 D s1 tf1 s2 tf2 out).1 = false) := by
  rw [shapeIntersect2_eq, shapeDistance2_eq, intersectResult_fst]
  cases hg : (gjkRun D (minkowski s1 tf1 s2 tf2)).status <;>
    simp [intersectResult, hg]

/-- C8 amended, on two separated unit cubes (the second at `(3, 0, 0)`) with GJK reporting
`Valid`: `shapeDistance2` returns a distance and `shapeIntersect2` reports no hit. -/
theorem intersect_distance_consistency_witness :
    (shapeDistance2 (fixedSolvers GJKStatus.Valid vertexX (epaX EPAStatus.Failed (0 : ℝ)))
      Real.sqrt unitBox (translation 0) unitBox (translation ⟨3, 0, 0⟩)).1 = true ∧
    (shapeIntersect2 (fixedSolvers GJKStatus.Valid vertexX (epaX EPAStatus.Failed (0 : ℝ)))
      unitBox (translation 0) unitBox (translation ⟨3, 0, 0⟩) allOutputs).1 = false := by
  have hd : (shapeDistance2 (fixedSolvers GJKStatus.Valid vertexX
      (epaX EPAStatus.Failed (0 : ℝ))) Real.sqrt unitBox (translation 0) unitBox
      (translation ⟨3, 0, 0⟩)).1 = true := by
    simp [shapeDistance2, fixedSolvers]
  exact ⟨hd, (intersect_distance_consistency
    (fixedSolvers GJKStatus.Valid vertexX (epaX EPAStatus.Failed (0 : ℝ))) Real.sqrt
    unitBox (translation 0) unitBox (translation ⟨3, 0, 0⟩) allOutputs).2.2 hd⟩

/-- C9: the `(R, T)` overload of `shapeTriangleIntersect2` returns the same boolean and outputs
as `shapeIntersect2` on the triangle `Triangle2(P1, P2, P3)` under `SimpleTransform(R, T)`; the
overload without `(R, T)` returns the same as the `(R, T)` overload at the identity rotation and
zero translation, its setup `toshape1 = tf.rotation`, `toshape0 = tf.inverse()` being equal to
`identityᵀ · tf.rotation` and `tf.inverseTimes(identity)`. -/
theorem shapeTriangleIntersect2_specialises (D : Solvers α Shape)
    (Triangle2 : Vec3f α → Vec3f α → Vec3f α → Shape) (s : Shape) (tf : SimpleTransform α)
    (P1 P2 P3 : Vec3f α) (R : Matrix3f α) (T : Vec3f α) (out : Outputs α) :
    shapeTriangleIntersect2RT D Triangle2 s tf P1 P2 P3 R T out
      = shapeIntersect2 D s tf (Triangle2 P1 P2 P3) ⟨R, T⟩ out ∧
    shapeTriangleIntersect2 D Triangle2 s tf P1 P2 P3 out
      = shapeTriangleIntersect2RT D Triangle2 s tf P1 P2 P3 Matrix3f.identity 0 out ∧
    tf.getRotation
      = (SimpleTransform.mk Matrix3f.identity 0).getRotation.transposeTimes tf.getRotation ∧
    tf.inverse = tf.inverseTimes ⟨Matrix3f.identity, 0⟩ := by
  have h1 : tf.getRotation
      = (SimpleTransform.mk Matrix3f.identity 0).getRotation.transposeTimes tf.getRotation := by
    simp only [SimpleTransform.getRotation, Matrix3f.identity_transposeTimes]
  have h0 : tf.inverse = tf.inverseTimes ⟨Matrix3f.identity, 0⟩ := by
    simp only [SimpleTransform.inverse, SimpleTransform.inverseTimes,
      Matrix3f.transposeTimes_identity]
    congr 2
    ext <;> simp
  refine ⟨?_, ?_, h1, h0⟩
  · rw [shapeTriangleIntersect2RT_eq, shapeIntersect2_eq]
  · rw [shapeTriangleIntersect2RT_eq, shapeTriangleIntersect2_eq]
    simp only [minkowski, ← h0, Matrix3f.identity_transposeTimes]

/-- C10 fails as stated.  With `GJKDistance` leaving `s = 2` in `*dist`, the value `v` reported
is `std::sqrt(2)`, and whatever binary64 value `std::sqrt` returns (every binary64 value is a
rational number), `v · v` is not 2: no rational number has square 2.  For the binary64 value
nearest to `√2`, which is 6369051672525773 / 2^52 and prints as 1.4142135623730951, the rounded
product `v · v` is 2.0000000000000004. -/
theorem shapeDistance_square_ne_two :
    (0 : ℚ) ≤ 2 ∧
    ((6369051672525773 / 4503599627370496 - 1 / 9007199254740992 : ℚ) ^ 2 < 2 ∧
      (2 : ℚ) < (6369051672525773 / 4503599627370496 + 1 / 9007199254740992) ^ 2) ∧
    roundBinary64 (6369051672525773 / 4503599627370496 * (6369051672525773 / 4503599627370496))
      = 4503599627370497 / 2251799813685248 ∧
    ∀ sqrt : ℚ → ℚ,
      (shapeDistance (⟨fun _ _ => (), ()⟩ : GJKInitializer (Vec3f ℚ) ℚ Unit Unit)
          (⟨fun _ _ => (), ()⟩ : GJKInitializer (Vec3f ℚ) ℚ Unit Unit)
          (fun _ _ _ _ _ => (true, 2)) sqrt unitBox (translation 0) unitBox
          (translation ⟨3, 0, 0⟩) 0).2 = sqrt 2 ∧
      (shapeDistance (⟨fun _ _ => (), ()⟩ : GJKInitializer (Vec3f ℚ) ℚ Unit Unit)
          (⟨fun _ _ => (), ()⟩ : GJKInitializer (Vec3f ℚ) ℚ Unit Unit)
          (fun _ _ _ _ _ => (true, 2)) sqrt unitBox (translation 0) unitBox
          (translation ⟨3, 0, 0⟩) 0).2
        * (shapeDistance (⟨fun _ _ => (), ()⟩ : GJKInitializer (Vec3f ℚ) ℚ Unit Unit)
          (⟨fun _ _ => (), ()⟩ : GJKInitializer (Vec3f ℚ) ℚ Unit Unit)
          (fun _ _ _ _ _ => (true, 2)) sqrt unitBox (translation 0) unitBox
          (translation ⟨3, 0, 0⟩) 0).2 ≠ 2 := by
  refine ⟨by norm_num, by norm_num, ?_, ?_⟩
  · norm_num [roundBinary64_sqrt_two_sq]
  intro sqrt
  have hv : (shapeDistance (⟨fun _ _ => (), ()⟩ : GJKInitializer (Vec3f ℚ) ℚ Unit Unit)
      (⟨fun _ _ => (), ()⟩ : GJKInitializer (Vec3f ℚ) ℚ Unit Unit)
      (fun _ _ _ _ _ => (true, 2)) sqrt unitBox (translation 0) unitBox
      (translation ⟨3, 0, 0⟩) 0).2 = sqrt 2 := by
    simp [shapeDistance]
  rw [hv]
  exact ⟨rfl, rat_mul_self_ne_two (sqrt 2)⟩

/-- C10, amended: `shapeDistance` applies `std::sqrt` once.  If `GJKDistance` leaves the value
`s` in `*dist`, the value reported is `sqrt s` when `s > 0` and `s` itself when `s ≤ 0`, and the
boolean returned is that of `GJKDistance`; for `s ≥ 0` the reported value `v` satisfies
`v · v = s` exactly when `s = 0` or the square root is exact (`sqrt s · sqrt s = s`).  Here
`sqrt` is any function, the rounded `std::sqrt` of binary64 included. -/
theorem shapeDistance_sqrt_once {S1 S2 Obj Fn : Type} (I1 : GJKInitializer S1 α Obj Fn)
    (I2 : GJKInitializer S2 α Obj Fn) (GJKDistance : Obj → Fn → Obj → Fn → α → Bool × α)
    (sqrt : α → α) (s1 : S1) (tf1 : SimpleTransform α) (s2 : S2) (tf2 : SimpleTransform α)
    (dist : α) (res : Bool) (s : α)
    (hG : GJKDistance (I1.createGJKObject s1 tf1) I1.getSupportFunction
      (I2.createGJKObject s2 tf2) I2.getSupportFunction dist = (res, s)) :
    (shapeDistance I1 I2 GJKDistance sqrt s1 tf1 s2 tf2 dist).1 = res ∧
    (0 < s → (shapeDistance I1 I2 GJKDistance sqrt s1 tf1 s2 tf2 dist).2 = sqrt s) ∧
    (s ≤ 0 → (shapeDistance I1 I2 GJKDistance sqrt s1 tf1 s2 tf2 dist).2 = s) ∧
    (0 ≤ s →
      ((shapeDistance I1 I2 GJKDistance sqrt s1 tf1 s2 tf2 dist).2
          * (shapeDistance I1 I2 GJKDistance sqrt s1 tf1 s2 tf2 dist).2 = s ↔
        s = 0 ∨ sqrt s * sqrt s = s)) := by
  simp only [shapeDistance, hG]
  refine ⟨trivial, ?_, ?_, ?_⟩
  · intro h
    rw [if_pos h]
  · intro h
    rw [if_neg (not_lt.mpr h)]
  · intro h
    rcases eq_or_lt_of_le h with h0 | hpos
    · subst h0
      simp
    · rw [if_pos hpos]
      constructor
      · intro hsq
        exact Or.inr hsq
      · rintro (h0 | hsq)
        · exact absurd h0 (ne_of_gt hpos)
        · exact hsq

/-- C10 amended, over the reals with the exact square root and `GJKDistance` leaving the squared
distance 4 in `*dist`: the value reported is 2. -/
theorem shapeDistance_sqrt_once_witness :
    shapeDistance (⟨fun _ _ => (), ()⟩ : GJKInitializer (Vec3f ℝ) ℝ Unit Unit)
      (⟨fun _ _ => (), ()⟩ : GJKInitializer (Vec3f ℝ) ℝ Unit Unit)
      (fun _ _ _ _ _ => (true, 4)) Real.sqrt unitBox (translation 0) unitBox
      (translation ⟨3, 0, 0⟩) 0 = (true, 2) := by
  have h := shapeDistance_sqrt_once (⟨fun _ _ => (), ()⟩ : GJKInitializer (Vec3f ℝ) ℝ Unit Unit)
    (⟨fun _ _ => (), ()⟩ : GJKInitializer (Vec3f ℝ) ℝ Unit Unit)
    (fun _ _ _ _ _ => (true, 4)) Real.sqrt unitBox (translation 0) unitBox
    (translation ⟨3, 0, 0⟩) 0 true 4 rfl
  have h4 : Real.sqrt 4 = 2 := by
    rw [show (4 : ℝ) = 2 ^ 2 by norm_num]
    exact Real.sqrt_sq (by norm_num)
  refine Prod.ext h.1 ?_
  rw [h.2.1 (by norm_num)]
  exact h4

end Claims

end fcl
